import Mathlib

/-!
# wifi-ftm : `src/ftm.c`

A shallow embedding of the FTM ranging client in `src/ftm.c` and the
properties of it that the specification states.

Conventions of the embedding

* C `int` values are `Int`; where the source converts between widths the
  conversion is written out (`wrap32`).
* A netlink attribute is a node of a tree: a type tag and either payload bytes
  or the attributes nested in it.  This is the view `nla_parse`,
  `nla_for_each_nested` and the `nla_get_*` readers of libnl give of the wire
  bytes; alignment padding and the length fields are not represented.
* `printf` / `fprintf` output is kept as a list of `Out` events, in order.
* `double` arithmetic is written in `ℚ`: the formulas of the source are kept,
  rounding is not.
* libnl and the kernel headers are not part of the sources.  Their constants
  carry the values of the Linux ABI, and the library calls the source makes
  are modelled by what they do on the tree view.
-/

namespace Ftm

/-! ## Constants of `errno.h`, libnl and `nl80211.h` -/

/-- Value of `EPROTO` in the Linux `errno.h`. -/
def EPROTO : Int := 71

/-- Callback action `NL_OK` of libnl (`enum nl_cb_action`). -/
def NL_OK : Int := 0
/-- Callback action `NL_SKIP` of libnl. -/
def NL_SKIP : Int := 1
/-- Callback action `NL_STOP` of libnl. -/
def NL_STOP : Int := 2

/-- Speed of light, `#define SOL 299792458` (ftm.c:13). -/
def SOL : Int := 299792458

/-- Modelled from the spec: `nl80211.h` is not among the sources; the IDs are
those of the nl80211 ABI (`enum nl80211_commands`). -/
def NL80211_CMD_PEER_MEASUREMENT_START : Nat := 131
/-- Modelled from the spec: nl80211 ABI, `enum nl80211_commands`. -/
def NL80211_CMD_PEER_MEASUREMENT_RESULT : Nat := 132
/-- Modelled from the spec: nl80211 ABI, `enum nl80211_commands`. -/
def NL80211_CMD_PEER_MEASUREMENT_COMPLETE : Nat := 133

/-- Modelled from the spec: nl80211 ABI, `enum nl80211_attrs`. -/
def NL80211_ATTR_IFINDEX : Nat := 3
/-- Modelled from the spec: nl80211 ABI, `enum nl80211_attrs`. -/
def NL80211_ATTR_WIPHY_FREQ : Nat := 38
/-- Modelled from the spec: nl80211 ABI, `enum nl80211_attrs`. -/
def NL80211_ATTR_COOKIE : Nat := 88
/-- Modelled from the spec: nl80211 ABI, `enum nl80211_attrs`. -/
def NL80211_ATTR_CHANNEL_WIDTH : Nat := 159
/-- Modelled from the spec: nl80211 ABI, `enum nl80211_attrs`. -/
def NL80211_ATTR_PEER_MEASUREMENTS : Nat := 273
/-- Modelled from the spec: nl80211 ABI.  `NL80211_ATTR_MAX` is the last entry
of `enum nl80211_attrs` and grows with the kernel release; every value from
`NL80211_ATTR_PEER_MEASUREMENTS` on gives the same table entries for the
attributes the program looks up. -/
def NL80211_ATTR_MAX : Nat := 274

/-- Modelled from the spec: nl80211 ABI, `enum nl80211_peer_measurement_attrs`. -/
def NL80211_PMSR_ATTR_PEERS : Nat := 5
/-- Modelled from the spec: nl80211 ABI, `enum nl80211_peer_measurement_attrs`. -/
def NL80211_PMSR_ATTR_MAX : Nat := 5

/-- Modelled from the spec: nl80211 ABI, `enum nl80211_peer_measurement_peer_attrs`. -/
def NL80211_PMSR_PEER_ATTR_ADDR : Nat := 1
/-- Modelled from the spec: nl80211 ABI, `enum nl80211_peer_measurement_peer_attrs`. -/
def NL80211_PMSR_PEER_ATTR_CHAN : Nat := 2
/-- Modelled from the spec: nl80211 ABI, `enum nl80211_peer_measurement_peer_attrs`. -/
def NL80211_PMSR_PEER_ATTR_REQ : Nat := 3
/-- Modelled from the spec: nl80211 ABI, `enum nl80211_peer_measurement_peer_attrs`. -/
def NL80211_PMSR_PEER_ATTR_RESP : Nat := 4
/-- Modelled from the spec: nl80211 ABI, `enum nl80211_peer_measurement_peer_attrs`. -/
def NL80211_PMSR_PEER_ATTR_MAX : Nat := 4

/-- Modelled from the spec: nl80211 ABI, `enum nl80211_peer_measurement_req`. -/
def NL80211_PMSR_REQ_ATTR_DATA : Nat := 1
/-- Modelled from the spec: nl80211 ABI, `enum nl80211_peer_measurement_resp`. -/
def NL80211_PMSR_RESP_ATTR_DATA : Nat := 1
/-- Modelled from the spec: nl80211 ABI, `enum nl80211_peer_measurement_resp`. -/
def NL80211_PMSR_RESP_ATTR_MAX : Nat := 6

/-- Modelled from the spec: nl80211 ABI, `enum nl80211_peer_measurement_type`. -/
def NL80211_PMSR_TYPE_FTM : Nat := 1
/-- Modelled from the spec: nl80211 ABI, `enum nl80211_peer_measurement_type`. -/
def NL80211_PMSR_TYPE_MAX : Nat := 1

/-- Modelled from the spec: nl80211 ABI, `enum nl80211_peer_measurement_ftm_req`. -/
def NL80211_PMSR_FTM_REQ_ATTR_ASAP : Nat := 1
/-- Modelled from the spec: nl80211 ABI, `enum nl80211_peer_measurement_ftm_req`. -/
def NL80211_PMSR_FTM_REQ_ATTR_PREAMBLE : Nat := 2
/-- Modelled from the spec: nl80211 ABI, `enum nl80211_peer_measurement_ftm_req`. -/
def NL80211_PMSR_FTM_REQ_ATTR_NUM_FTMR_RETRIES : Nat := 7

/-- Modelled from the spec: nl80211 ABI, `enum nl80211_peer_measurement_ftm_resp`. -/
def NL80211_PMSR_FTM_RESP_ATTR_RTT_AVG : Nat := 13
/-- Modelled from the spec: nl80211 ABI, `enum nl80211_peer_measurement_ftm_resp`. -/
def NL80211_PMSR_FTM_RESP_ATTR_DIST_AVG : Nat := 16
/-- Modelled from the spec: nl80211 ABI, `enum nl80211_peer_measurement_ftm_resp`. -/
def NL80211_PMSR_FTM_RESP_ATTR_MAX : Nat := 21

/-- Modelled from the spec: nl80211 ABI, `enum nl80211_preamble`. -/
def NL80211_PREAMBLE_HT : Nat := 1
/-- Modelled from the spec: nl80211 ABI, `enum nl80211_chan_width`. -/
def NL80211_CHAN_WIDTH_20 : Nat := 1

/-! ## Attributes -/

/-- A netlink attribute as libnl presents it: the type tag (`nla_type`) with
either its payload bytes or the attributes nested in its payload. -/
inductive Nlattr where
  | leaf (nla_type : Nat) (payload : List Nat)
  | nest (nla_type : Nat) (attrs : List Nlattr)

/-- Type tag of an attribute, `nla_type(nla)`. -/
def nla_type : Nlattr → Nat
  | .leaf t _ => t
  | .nest t _ => t

/-- Payload bytes of an attribute, `nla_data(nla)` / `nla_len(nla)`; the bytes
of a container are not represented. -/
def nla_data : Nlattr → List Nat
  | .leaf _ p => p
  | .nest _ _ => []

/-- The attribute stream found in the payload, as `nla_for_each_nested` and
`nla_parse_nested` walk it; a scalar payload holds none. -/
def nla_nested : Nlattr → List Nlattr
  | .leaf _ _ => []
  | .nest _ as => as

/-- The array `struct nlattr *tb[maxtype + 1]` filled by `nla_parse`: `none` is
the NULL pointer. -/
abbrev Table := Nat → Option Nlattr

/-- Loop of libnl `nla_parse(tb, maxtype, head, len, NULL)`: the table is
cleared, attributes with a type above `maxtype` are passed over, and every
other attribute is stored at its type, a later one replacing an earlier one. -/
def nla_parse (maxtype : Nat) (attrs : List Nlattr) : Table :=
  attrs.foldl
    (fun tb nla => if maxtype < nla_type nla then tb
      else fun t => if t = nla_type nla then some nla else tb t)
    (fun _ => none)

/-- What a call of `nla_parse_nested` does. -/
inductive Parsed where
  /-- Returned 0 and filled the table. -/
  | ok (tb : Table)
  /-- Returned a non-zero error code. -/
  | error (err : Int)
  /-- Read through a NULL attribute pointer. -/
  | null_deref

/-- Library call `nla_parse_nested(tb, maxtype, nla, NULL)` of libnl, which is
`nla_parse(tb, maxtype, nla_data(nla), nla_len(nla), NULL)`: `nla_len` reads
`nla->nla_len`, so a NULL `nla` is dereferenced; with a NULL policy nothing is
validated and the call returns 0. -/
def nla_parse_nested (maxtype : Nat) : Option Nlattr → Parsed
  | none => .null_deref
  | some nla => .ok (nla_parse maxtype (nla_nested nla))

/-- Little-endian value of a byte string (host order of the `nla_get_*`
readers on the platforms the program targets). -/
def le_value : List Nat → Nat
  | [] => 0
  | b :: bs => b % 256 + 256 * le_value bs

/-- The `n` little-endian bytes of `v`. -/
def le_bytes : Nat → Nat → List Nat
  | 0, _ => []
  | n + 1, v => v % 256 :: le_bytes n (v / 256)

/-- Conversion of an unsigned 32-bit pattern to `int`. -/
def wrap32 (v : Int) : Int :=
  let u := v % 4294967296
  if u < 2147483648 then u else u - 4294967296

/-- Library call `nla_get_s64(nla)`: the first eight payload bytes as a signed
64-bit integer. -/
def nla_get_s64 (nla : Nlattr) : Int :=
  let u := le_value ((nla_data nla).take 8)
  if u < 9223372036854775808 then (u : Int) else (u : Int) - 18446744073709551616

/-- Library call `nla_get_u32(nla)`. -/
def nla_get_u32 (nla : Nlattr) : Nat := le_value ((nla_data nla).take 4)

/-- Library call `nla_get_u8(nla)`. -/
def nla_get_u8 (nla : Nlattr) : Nat := le_value ((nla_data nla).take 1)

/-- Payload written by `NLA_PUT_U32`: the value converted to `uint32_t`. -/
def u32_bytes (v : Int) : List Nat := le_bytes 4 (v % 4294967296).toNat

/-- Payload written by `NLA_PUT_U8`: the value converted to `uint8_t`. -/
def u8_bytes (v : Int) : List Nat := le_bytes 1 (v % 256).toNat

/-- Payload of an `s64` attribute holding `v`. -/
def s64_bytes (v : Int) : List Nat := le_bytes 8 (v % 18446744073709551616).toNat

/-! ## Output -/

/-- One `printf` / `fprintf` of the program. -/
inductive Out where
  /-- A fixed diagnostic line. -/
  | text (s : String)
  /-- Line `fprintf(stderr, "ERROR: received positive netlink error code %d\n", e)`. -/
  | positive_error (e : Int)
  /-- Line `fprintf(stderr, "kernel reports: %*s\n", len, msg)`. -/
  | kernel_reports (msg : List Nat)
  /-- Line `printf("Received error code %d\n", err)`. -/
  | received_error (err : Int)
  /-- Line `printf("%-12s%6.3f m\n", "distance: ", dist_result)`. -/
  | distance (dist_result : ℚ)
  deriving DecidableEq

/-! ## ACK handlers (ftm.c:19-79) -/

/-- An `NLMSG_ERROR` frame as `error_handler` reads it: the header `nlh` in
front of `err`, the error record, and the attributes behind the ACK header. -/
structure Nlmsgerr where
  /-- Field `nlh->nlmsg_len`. -/
  nlmsg_len : Nat
  /-- Field `nlh->nlmsg_flags`. -/
  nlmsg_flags : Nat
  /-- Field `err->error`. -/
  error : Int
  /-- Field `err->msg.nlmsg_len`. -/
  msg_nlmsg_len : Nat
  /-- The attribute stream that starts `ack_len` bytes into the frame. -/
  attrs : List Nlattr

/-- What a handler leaves behind: the value stored through `arg`, its return
value and what it printed. -/
structure Handled where
  ret : Int
  rc : Int
  out : List Out

/-- Library call `strnlen(s, n)` on payload bytes. -/
def strnlen (s : List Nat) (n : Nat) : Nat :=
  ((s.take n).takeWhile (fun b => b ≠ 0)).length

/-- Embedding of `error_handler` (ftm.c:19-63).  `sizeof(*nlh)` is 16 and
`sizeof(int)` is 4. -/
def error_handler (e : Nlmsgerr) : Handled :=
  let len : Int := wrap32 e.nlmsg_len
  let ack_len : Int := 16 + 4 + 16
  let ret : Int := if e.error > 0 then -EPROTO else e.error
  let out : List Out := if e.error > 0 then [.positive_error e.error] else []
  if e.nlmsg_flags &&& 0x200 = 0 then ⟨ret, NL_STOP, out⟩
  else
    let ack_len : Int :=
      if e.nlmsg_flags &&& 0x100 = 0 then wrap32 (ack_len + e.msg_nlmsg_len - 16)
      else ack_len
    if len ≤ ack_len then ⟨ret, NL_STOP, out⟩
    else
      let tb := nla_parse 3 e.attrs
      match tb 1 with
      | some a =>
        let n := strnlen (nla_data a) (nla_data a).length
        ⟨ret, NL_STOP, out ++ [.kernel_reports ((nla_data a).take n)]⟩
      | none => ⟨ret, NL_STOP, out⟩

/-- Embedding of `finish_handler` (ftm.c:65-69). -/
def finish_handler : Handled := ⟨0, NL_SKIP, []⟩

/-- Embedding of `ack_handler` (ftm.c:71-75). -/
def ack_handler : Handled := ⟨0, NL_STOP, []⟩

/-- Embedding of `no_seq_check` (ftm.c:77-79). -/
def no_seq_check : Int := NL_OK

/-! ## Result handler (ftm.c:243-346) -/

/-- A generic-netlink message as a valid-message callback receives it:
`gnlh->cmd` and the attribute stream behind the header. -/
structure Genlmsg where
  cmd : Nat
  attrs : List Nlattr

/-- How a call ends: with a return value, or inside libnl on a read through a
NULL attribute pointer. -/
inductive Exit where
  | returned (v : Int)
  | null_deref
  deriving DecidableEq

/-- Distance computation of `handle_ftm_result` (ftm.c:328-342) on the parsed
FTM container. -/
def dist_result (ftm : Table) : ℚ :=
  let dist : Int :=
    match ftm NL80211_PMSR_FTM_RESP_ATTR_DIST_AVG with
    | some a => nla_get_s64 a
    | none => 0
  let rtt : Int :=
    match ftm NL80211_PMSR_FTM_RESP_ATTR_RTT_AVG with
    | some a => nla_get_s64 a
    | none => 0
  if dist ≠ 0 then (dist : ℚ) / 1000
  else if rtt ≠ 0 then (rtt : ℚ) * (SOL : ℚ) / 1000000000000
  else 0

/-- How one pass through the body of the peer loop ends. -/
inductive PeerStep where
  /-- The body ran to its end and printed this. -/
  | next (out : List Out)
  /-- Statement `return v` after printing this. -/
  | ret (v : Int) (out : List Out)
  /-- A read through a NULL attribute pointer. -/
  | null_deref

/-- Body of the `nla_for_each_nested` loop of `handle_ftm_result`
(ftm.c:285-343) for one peer. -/
def handle_ftm_result_peer (peer : Nlattr) : PeerStep :=
  match nla_parse_nested NL80211_PMSR_PEER_ATTR_MAX (some peer) with
  | .null_deref => .null_deref
  | .error _ => .ret 1 [.text "  Peer: failed to parse!\n"]
  | .ok peer_tb =>
    if (peer_tb NL80211_PMSR_PEER_ATTR_ADDR).isNone then
      .ret 1 [.text "  Peer: no MAC address\n"]
    else if (peer_tb NL80211_PMSR_PEER_ATTR_RESP).isNone then
      .ret 1 [.text " no response!\n"]
    else
      match nla_parse_nested NL80211_PMSR_RESP_ATTR_MAX
          (peer_tb NL80211_PMSR_PEER_ATTR_RESP) with
      | .null_deref => .null_deref
      | .error _ => .ret 1 [.text " failed to parse response!\n"]
      | .ok resp =>
        match nla_parse_nested NL80211_PMSR_TYPE_MAX
            (resp NL80211_PMSR_RESP_ATTR_DATA) with
        | .null_deref => .null_deref
        | .error _ => .ret 1 []
        | .ok data =>
          match nla_parse_nested NL80211_PMSR_FTM_RESP_ATTR_MAX
              (data NL80211_PMSR_TYPE_FTM) with
          | .null_deref => .null_deref
          | .error _ => .ret 1 []
          | .ok ftm => .next [.distance (dist_result ftm)]

/-- The loop `nla_for_each_nested(peer, pmsr[NL80211_PMSR_ATTR_PEERS], i)` of
`handle_ftm_result` with the `return 0` behind it (ftm.c:283-345); `out` is
what has been printed so far. -/
def handle_ftm_result_peers : List Nlattr → List Out → Exit × List Out
  | [], out => (.returned 0, out)
  | peer :: rest, out =>
    match handle_ftm_result_peer peer with
    | .next o => handle_ftm_result_peers rest (out ++ o)
    | .ret v o => (.returned v, out ++ o)
    | .null_deref => (.null_deref, out)

/-- What a call of `handle_ftm_result` leaves behind: how it ended, the value
of the `int` that `arg` points to, and what it printed. -/
structure Run where
  exit : Exit
  status : Int
  out : List Out

/-- Embedding of `handle_ftm_result` (ftm.c:243-346); `status` is the value of
`*arg` on entry. -/
def handle_ftm_result (msg : Genlmsg) (status : Int) : Run :=
  if msg.cmd = NL80211_CMD_PEER_MEASUREMENT_COMPLETE then ⟨.returned (-1), 0, []⟩
  else if msg.cmd ≠ NL80211_CMD_PEER_MEASUREMENT_RESULT then ⟨.returned (-1), status, []⟩
  else
    let tb := nla_parse NL80211_ATTR_MAX msg.attrs
    if (tb NL80211_ATTR_COOKIE).isNone then
      ⟨.returned (-1), status, [.text "Peer measurements: no cookie!\n"]⟩
    else if (tb NL80211_ATTR_PEER_MEASUREMENTS).isNone then
      ⟨.returned (-1), status, [.text "Peer measurements: no measurement data!\n"]⟩
    else
      match nla_parse_nested NL80211_PMSR_ATTR_MAX (tb NL80211_ATTR_PEER_MEASUREMENTS) with
      | .null_deref => ⟨.null_deref, status, []⟩
      | .error _ => ⟨.returned (-1), status, []⟩
      | .ok pmsr =>
        match pmsr NL80211_PMSR_ATTR_PEERS with
        | none => ⟨.returned (-1), status, [.text "Peer measurements: no peer data!\n"]⟩
        | some peers =>
          let r := handle_ftm_result_peers (nla_nested peers) []
          ⟨r.1, status, r.2⟩

/-! ## Request builder (ftm.c:125-182) -/

/-- One successful library call that appends to the attribute area of a
message under construction.  `nla_nest_start` returns a pointer to the
attribute it appends; the pointer is kept as the position of the call in the
list, and `nla_nest_end` names the container it closes by that position. -/
inductive Ev where
  | put (attrtype : Nat) (data : List Nat)
  | nest_start (attrtype : Nat)
  | nest_end (start : Nat)
  deriving DecidableEq

/-- A `struct nl_msg` under construction: the generic-netlink header written by
`genlmsg_put` and the calls that appended to the attribute area. -/
structure nl_msg where
  family : Int
  cmd : Nat
  attrs : List Ev
  deriving DecidableEq

/-- Whether libnl finds no room in the message for an attribute with a payload
of the given length (`nla_reserve` returning NULL).  The answer is left to the
environment. -/
abbrev NoRoom := nl_msg → Nat → Bool

/-- Library call `nla_put(msg, attrtype, attrlen, data)`; `none` is the negative
return value. -/
def nla_put (no_room : NoRoom) (msg : nl_msg) (attrtype : Nat) (data : List Nat) :
    Option nl_msg :=
  if no_room msg data.length then none
  else some { msg with attrs := msg.attrs ++ [.put attrtype data] }

/-- Library call `nla_nest_start(msg, attrtype)`: an attribute header without
payload is appended and a pointer to it returned; `none` is NULL. -/
def nla_nest_start (no_room : NoRoom) (msg : nl_msg) (attrtype : Nat) :
    Option (nl_msg × Nat) :=
  if no_room msg 0 then none
  else some ({ msg with attrs := msg.attrs ++ [.nest_start attrtype] }, msg.attrs.length)

/-- Library call `nla_nest_end(msg, start)`. -/
def nla_nest_end (msg : nl_msg) (start : Nat) : nl_msg :=
  { msg with attrs := msg.attrs ++ [.nest_end start] }

/-- What a builder function leaves behind: the message, which it changes in
place, its return value and what it printed. -/
structure Built where
  msg : nl_msg
  ret : Int
  out : List Out

/-- Embedding of `set_ftm_peer` (ftm.c:125-169). -/
def set_ftm_peer (no_room : NoRoom) (msg : nl_msg) (index : Nat) : Built :=
  match nla_nest_start no_room msg index with
  | none => ⟨msg, -1, [.text "put failed!\n"]⟩
  | some (msg, peer) =>
  match nla_put no_room msg NL80211_PMSR_PEER_ATTR_ADDR [0x0a, 0x83, 0xa1, 0x15, 0xbf, 0x50] with
  | none => ⟨msg, -1, [.text "put failed!\n"]⟩
  | some msg =>
  match nla_nest_start no_room msg NL80211_PMSR_PEER_ATTR_REQ with
  | none => ⟨msg, -1, [.text "put failed!\n"]⟩
  | some (msg, req) =>
  match nla_nest_start no_room msg NL80211_PMSR_REQ_ATTR_DATA with
  | none => ⟨msg, -1, [.text "put failed!\n"]⟩
  | some (msg, req_data) =>
  match nla_nest_start no_room msg NL80211_PMSR_TYPE_FTM with
  | none => ⟨msg, -1, [.text "put failed!\n"]⟩
  | some (msg, ftm) =>
  match nla_put no_room msg NL80211_PMSR_FTM_REQ_ATTR_PREAMBLE
      (u32_bytes NL80211_PREAMBLE_HT) with
  | none => ⟨msg, -1, [.text "put failed!\n"]⟩
  | some msg =>
  match nla_put no_room msg NL80211_PMSR_FTM_REQ_ATTR_NUM_FTMR_RETRIES (u8_bytes 5) with
  | none => ⟨msg, -1, [.text "put failed!\n"]⟩
  | some msg =>
  match nla_put no_room msg NL80211_PMSR_FTM_REQ_ATTR_ASAP [] with
  | none => ⟨msg, -1, [.text "put failed!\n"]⟩
  | some msg =>
  let msg := nla_nest_end msg ftm
  let msg := nla_nest_end msg req_data
  let msg := nla_nest_end msg req
  match nla_nest_start no_room msg NL80211_PMSR_PEER_ATTR_CHAN with
  | none => ⟨msg, -1, [.text "put failed!\n"]⟩
  | some (msg, chan) =>
  match nla_put no_room msg NL80211_ATTR_CHANNEL_WIDTH (u32_bytes NL80211_CHAN_WIDTH_20) with
  | none => ⟨msg, -1, [.text "put failed!\n"]⟩
  | some msg =>
  match nla_put no_room msg NL80211_ATTR_WIPHY_FREQ (u32_bytes 2412) with
  | none => ⟨msg, -1, [.text "put failed!\n"]⟩
  | some msg =>
  let msg := nla_nest_end msg chan
  let msg := nla_nest_end msg peer
  ⟨msg, 0, []⟩

/-- Embedding of `set_ftm_config` (ftm.c:171-182).  The return value of
`set_ftm_peer` is not looked at. -/
def set_ftm_config (no_room : NoRoom) (msg : nl_msg) : Built :=
  match nla_nest_start no_room msg NL80211_ATTR_PEER_MEASUREMENTS with
  | none => ⟨msg, 1, []⟩
  | some (msg, pmsr) =>
  match nla_nest_start no_room msg NL80211_PMSR_ATTR_PEERS with
  | none => ⟨msg, 1, []⟩
  | some (msg, peers) =>
  let r := set_ftm_peer no_room msg 1
  let msg := nla_nest_end r.msg peers
  let msg := nla_nest_end msg pmsr
  ⟨msg, 0, r.out⟩

/-! ## Receiving (libnl `nl_recvmsgs`) -/

/-- Kind of a received netlink message. -/
inductive Body where
  /-- Type `NLMSG_ERROR`. -/
  | error (e : Nlmsgerr)
  /-- Type `NLMSG_DONE`. -/
  | done
  /-- Type `NLMSG_NOOP`. -/
  | noop
  /-- Type `NLMSG_OVERRUN`. -/
  | overrun
  /-- Any other type: a payload message. -/
  | data (m : Genlmsg)

/-- A received netlink message: whether its sequence number is the one the
socket expects, and its kind. -/
structure Frame where
  seq_ok : Bool
  body : Body

/-- The callbacks of a `struct nl_cb` allocated with `NL_CB_DEFAULT` that the
program sets; `none` is a hook left at its default. -/
structure nl_cb where
  /-- Hook `NL_CB_SEQ_CHECK`: the value the custom callback returns. -/
  seq_check : Option Int
  /-- Hook set with `nl_cb_err`. -/
  err : Option (Nlmsgerr → Handled)
  /-- Hook `NL_CB_FINISH`. -/
  finish : Option Handled
  /-- Hook `NL_CB_ACK`. -/
  ack : Option Handled
  /-- Hook `NL_CB_VALID`, called with the message and the value of `*arg`. -/
  valid : Option (Genlmsg → Int → Run)

/-- What the callbacks share and leave behind: the `int` their `arg` points to
and the output so far. -/
structure Sess where
  status : Int
  out : List Out

/-- What `nl_recvmsgs` does after a message. -/
inductive Act where
  /-- Go on with the next message of the receive call. -/
  | next
  /-- Leave the receive call. -/
  | stop
  /-- The process has faulted. -/
  | crash
  deriving DecidableEq

/-- libnl on the return value of a callback: `NL_OK` and `NL_SKIP` go on to the
next message, `NL_STOP` and error values leave the receive call. -/
def nl_cb_call (rc : Int) : Act :=
  if rc = NL_OK ∨ rc = NL_SKIP then .next else .stop

/-- libnl `recvmsgs` on one message: the sequence check (the custom callback
when one is set, else the expected number is required), then the callback for
the kind of message.  An `NLMSG_ERROR` message goes to the error callback when
its code is not zero and to the ACK callback when it is zero; without an error
callback a non-zero code leaves the receive call, as `NLMSG_OVERRUN` does. -/
def dispatch (cb : nl_cb) (f : Frame) (s : Sess) : Sess × Act :=
  let seq : Option Act :=
    match cb.seq_check with
    | some rc => if rc = NL_OK then none else some (nl_cb_call rc)
    | none => if f.seq_ok then none else some .stop
  match seq with
  | some a => (s, a)
  | none =>
    match f.body with
    | .done =>
      match cb.finish with
      | some h => (⟨h.ret, s.out ++ h.out⟩, nl_cb_call h.rc)
      | none => (s, .next)
    | .noop => (s, .next)
    | .overrun => (s, .stop)
    | .error e =>
      if e.error ≠ 0 then
        match cb.err with
        | some h => (⟨(h e).ret, s.out ++ (h e).out⟩, nl_cb_call (h e).rc)
        | none => (s, .stop)
      else
        match cb.ack with
        | some h => (⟨h.ret, s.out ++ h.out⟩, nl_cb_call h.rc)
        | none => (s, .next)
    | .data m =>
      match cb.valid with
      | some h =>
        match (h m s.status).exit with
        | .returned v => (⟨(h m s.status).status, s.out ++ (h m s.status).out⟩, nl_cb_call v)
        | .null_deref => (⟨(h m s.status).status, s.out ++ (h m s.status).out⟩, .crash)
      | none => (s, .next)

/-- One call `nl_recvmsgs(sock, cb)` on the messages it reads, in arrival
order.  The result is the state the call leaves, whether the process faulted,
and the messages of the call that were not dispatched because the call was
left before them. -/
def nl_recvmsgs (cb : nl_cb) : List Frame → Sess → Sess × Bool × List Frame
  | [], s => (s, false, [])
  | f :: fs, s =>
    match dispatch cb f s with
    | (s, .next) => nl_recvmsgs cb fs s
    | (s, .stop) => (s, false, fs)
    | (s, .crash) => (s, true, fs)

/-- The loop `while (pending(status)) nl_recvmsgs(sock, cb);` over the receive
calls the socket will serve, each with the messages it reads.  The result is
the state at loop exit, whether the process faulted, and the receive calls not
made; `none` when the loop is still waiting after the last one. -/
def recv_loop (pending : Int → Bool) (cb : nl_cb) :
    List (List Frame) → Sess → Option (Sess × Bool × List (List Frame))
  | [], s => if pending s.status then none else some (s, false, [])
  | b :: bs, s =>
    if pending s.status then
      match nl_recvmsgs cb b s with
      | (s, true, _) => some (s, true, bs)
      | (s, false, _) => recv_loop pending cb bs s
    else some (s, false, b :: bs)

/-! ## `start_ftm` (ftm.c:184-241) -/

/-- What the environment answers to one run of `start_ftm`. -/
structure Env where
  /-- Whether `nlmsg_alloc()` returned a message. -/
  nlmsg_alloc : Bool
  /-- Field `state->nl80211_id`. -/
  nl80211_id : Int
  /-- Value of `if_nametoindex("wlp3s0")`, an `unsigned int`. -/
  if_nametoindex : Nat
  /-- Room in the message. -/
  no_room : NoRoom
  /-- Whether `nl_cb_alloc(NL_CB_DEFAULT)` returned a callback set. -/
  nl_cb_alloc : Bool
  /-- Return value of `nl_send_auto`. -/
  nl_send_auto : Int
  /-- The receive calls the socket will serve. -/
  incoming : List (List Frame)

/-- What one run leaves behind: the return value (`none` when the run is still
in its receive loop after the last receive call, `null_deref` when it faulted),
the message handed to `nl_send_auto` if the run got there, the output, and the
receive calls not made. -/
structure Ran where
  ret : Option Exit
  sent : Option nl_msg
  out : List Out
  unread : List (List Frame)

/-- The callbacks `start_ftm` registers (ftm.c:225-227). -/
def start_ftm_cb : nl_cb :=
  ⟨none, some error_handler, some finish_handler, some ack_handler, none⟩

/-- The receive loop of `start_ftm` and the return behind it (ftm.c:224-237). -/
def start_ftm_wait (sent : Option nl_msg) (out : List Out)
    (incoming : List (List Frame)) : Ran :=
  match recv_loop (fun err => decide (err > 0)) start_ftm_cb incoming ⟨1, out⟩ with
  | none => ⟨none, sent, out, []⟩
  | some (s, true, unread) => ⟨some .null_deref, sent, s.out, unread⟩
  | some (s, false, unread) =>
    let out := if s.status = -1 then s.out ++ [.text "Permission denied!\n"] else s.out
    if s.status < 0 then ⟨some (.returned 1), sent, out ++ [.received_error s.status], unread⟩
    else ⟨some (.returned 0), sent, out, unread⟩

/-- Embedding of `start_ftm` (ftm.c:184-241). -/
def start_ftm (env : Env) : Ran :=
  if !env.nlmsg_alloc then
    ⟨some (.returned 1), none, [.text "Fail to allocate message!"], env.incoming⟩
  else
    let msg : nl_msg := ⟨env.nl80211_id, NL80211_CMD_PEER_MEASUREMENT_START, []⟩
    let devidx : Int := env.if_nametoindex
    if devidx = 0 then
      ⟨some (.returned 1), none, [.text "Fail to find device!\n"], env.incoming⟩
    else
      match nla_put env.no_room msg NL80211_ATTR_IFINDEX (u32_bytes devidx) with
      | none => ⟨some (.returned 1), none, [], env.incoming⟩
      | some msg =>
        let c := set_ftm_config env.no_room msg
        if c.ret ≠ 0 then ⟨some (.returned 1), none, c.out, env.incoming⟩
        else if !env.nl_cb_alloc then
          ⟨some (.returned 1), none, c.out ++ [.text "Fail to allocate callback\n"],
            env.incoming⟩
        else if env.nl_send_auto < 0 then
          ⟨some (.returned 1), some c.msg, c.out, env.incoming⟩
        else start_ftm_wait (some c.msg) c.out env.incoming

/-! ## `listen_ftm_result` (ftm.c:348-365) -/

/-- The callbacks `listen_ftm_result` registers (ftm.c:357-358). -/
def listen_ftm_result_cb : nl_cb :=
  ⟨some no_seq_check, none, none, none, some handle_ftm_result⟩

/-- Embedding of `listen_ftm_result` (ftm.c:348-365); nothing is sent. -/
def listen_ftm_result (nl_cb_alloc : Bool) (incoming : List (List Frame)) : Ran :=
  if !nl_cb_alloc then ⟨some (.returned 1), none, [], incoming⟩
  else
    match recv_loop (fun status => decide (status ≠ 0)) listen_ftm_result_cb incoming ⟨1, []⟩ with
    | none => ⟨none, none, [], []⟩
    | some (s, true, unread) => ⟨some .null_deref, none, s.out, unread⟩
    | some (s, false, unread) => ⟨some (.returned 0), none, s.out, unread⟩

/-! ## Reading the claims on the attribute tree -/

/-- An attribute of type `t` is among `attrs`. -/
def has_attr (attrs : List Nlattr) (t : Nat) : Prop := ∃ a ∈ attrs, nla_type a = t

/-- The distance lines among the output. -/
def distances : List Out → List ℚ
  | [] => []
  | .distance q :: out => q :: distances out
  | _ :: out => distances out

/-- The peer carries a response container with a data container that holds an
FTM container, each found the way the handler looks it up. -/
def carries_ftm (peer : Nlattr) : Prop :=
  ∃ resp data ftm,
    nla_parse NL80211_PMSR_PEER_ATTR_MAX (nla_nested peer) NL80211_PMSR_PEER_ATTR_RESP
      = some resp
    ∧ nla_parse NL80211_PMSR_RESP_ATTR_MAX (nla_nested resp) NL80211_PMSR_RESP_ATTR_DATA
      = some data
    ∧ nla_parse NL80211_PMSR_TYPE_MAX (nla_nested data) NL80211_PMSR_TYPE_FTM = some ftm

/-- A peer of the response nesting `peer{ ADDR, RESP{ DATA{ FTM{ ... } } } }`
with the given FTM leaves. -/
def response_peer (ftm : List Nlattr) : Nlattr :=
  .nest 1 [.leaf NL80211_PMSR_PEER_ATTR_ADDR [10, 131, 161, 21, 191, 80],
    .nest NL80211_PMSR_PEER_ATTR_RESP
      [.nest NL80211_PMSR_RESP_ATTR_DATA [.nest NL80211_PMSR_TYPE_FTM ftm]]]

/-- The response container of `response_peer`. -/
def response_resp (ftm : List Nlattr) : Nlattr :=
  .nest NL80211_PMSR_PEER_ATTR_RESP
    [.nest NL80211_PMSR_RESP_ATTR_DATA [.nest NL80211_PMSR_TYPE_FTM ftm]]

/-- The data container of `response_peer`. -/
def response_data (ftm : List Nlattr) : Nlattr :=
  .nest NL80211_PMSR_RESP_ATTR_DATA [.nest NL80211_PMSR_TYPE_FTM ftm]

/-- A `PEER_MEASUREMENT_RESULT` message with a cookie and the given peers. -/
def result_msg (peers : List Nlattr) : Genlmsg :=
  ⟨NL80211_CMD_PEER_MEASUREMENT_RESULT,
    [.leaf NL80211_ATTR_COOKIE [1, 0, 0, 0, 0, 0, 0, 0],
     .nest NL80211_ATTR_PEER_MEASUREMENTS [.nest NL80211_PMSR_ATTR_PEERS peers]]⟩

/-- The containers still open after the calls `evs`, innermost first, when
every `nla_nest_end` so far named the innermost container open at that point;
`none` when one did not.  `pos` is the position of the first call of `evs`. -/
def open_nests_from : List Ev → Nat → List Nat → Option (List Nat)
  | [], _, stack => some stack
  | .put _ _ :: evs, pos, stack => open_nests_from evs (pos + 1) stack
  | .nest_start _ :: evs, pos, stack => open_nests_from evs (pos + 1) (pos :: stack)
  | .nest_end start :: evs, pos, stack =>
    match stack with
    | top :: stack => if top = start then open_nests_from evs (pos + 1) stack else none
    | [] => none

/-- The containers left open by a sequence of calls; see `open_nests_from`. -/
def open_nests (evs : List Ev) : Option (List Nat) := open_nests_from evs 0 []

/-- The attribute tree that a sequence of calls builds, when every container
is closed innermost first and none is left open: `cur` collects the attributes
of the innermost open container, `stack` holds, for each enclosing container,
where it was opened, its type and the attributes in front of it. -/
def attrs_from : List Ev → Nat → List Nlattr → List (Nat × Nat × List Nlattr) →
    Option (List Nlattr)
  | [], _, cur, [] => some cur
  | [], _, _, _ :: _ => none
  | .put t d :: evs, pos, cur, stack => attrs_from evs (pos + 1) (cur ++ [.leaf t d]) stack
  | .nest_start t :: evs, pos, cur, stack => attrs_from evs (pos + 1) [] ((pos, t, cur) :: stack)
  | .nest_end start :: evs, pos, cur, stack =>
    match stack with
    | (top, t, front) :: stack =>
      if top = start then attrs_from evs (pos + 1) (front ++ [.nest t cur]) stack else none
    | [] => none

/-- The attribute tree of a finished message; see `attrs_from`. -/
def attrs_of (evs : List Ev) : Option (List Nlattr) := attrs_from evs 0 [] []

/-- Modelled from the spec: `find(id)` of the attribute tree (§4.1), the first
attribute with the given type among a list of siblings. -/
def find (attrs : List Nlattr) (id : Nat) : Option Nlattr :=
  attrs.find? (fun a => decide (nla_type a = id))

/-- The attribute reached from `attrs` along a path of types, each step being
a `find` among the attributes nested in the previous one. -/
def find_path : List Nlattr → List Nat → Option Nlattr
  | _, [] => none
  | attrs, [id] => find attrs id
  | attrs, id :: ids =>
    match find attrs id with
    | some a => find_path (nla_nested a) ids
    | none => none

/-- The request nesting of the specification (§6) for a device index, with the
values `set_ftm_peer` puts. -/
def request_tree (devidx : Nat) : List Nlattr :=
  [.leaf NL80211_ATTR_IFINDEX (u32_bytes devidx),
   .nest NL80211_ATTR_PEER_MEASUREMENTS
     [.nest NL80211_PMSR_ATTR_PEERS
       [.nest 1
         [.leaf NL80211_PMSR_PEER_ATTR_ADDR [0x0a, 0x83, 0xa1, 0x15, 0xbf, 0x50],
          .nest NL80211_PMSR_PEER_ATTR_REQ
            [.nest NL80211_PMSR_REQ_ATTR_DATA
              [.nest NL80211_PMSR_TYPE_FTM
                [.leaf NL80211_PMSR_FTM_REQ_ATTR_PREAMBLE (u32_bytes NL80211_PREAMBLE_HT),
                 .leaf NL80211_PMSR_FTM_REQ_ATTR_NUM_FTMR_RETRIES (u8_bytes 5),
                 .leaf NL80211_PMSR_FTM_REQ_ATTR_ASAP []]]],
          .nest NL80211_PMSR_PEER_ATTR_CHAN
            [.leaf NL80211_ATTR_CHANNEL_WIDTH (u32_bytes NL80211_CHAN_WIDTH_20),
             .leaf NL80211_ATTR_WIPHY_FREQ (u32_bytes 2412)]]]]]

/-- The environment of a run in which every allocation succeeds, the message
has room, the device has index 3 and the send succeeds. -/
def plain_env (incoming : List (List Frame)) : Env :=
  ⟨true, 28, 3, fun _ _ => false, true, 0, incoming⟩

/-- The library calls that build the request for a device index, in the
order of the specification (§4.2). -/
def request_log (devidx : Nat) : List Ev :=
  [.put NL80211_ATTR_IFINDEX (u32_bytes devidx),
   .nest_start NL80211_ATTR_PEER_MEASUREMENTS,
   .nest_start NL80211_PMSR_ATTR_PEERS,
   .nest_start 1,
   .put NL80211_PMSR_PEER_ATTR_ADDR [0x0a, 0x83, 0xa1, 0x15, 0xbf, 0x50],
   .nest_start NL80211_PMSR_PEER_ATTR_REQ,
   .nest_start NL80211_PMSR_REQ_ATTR_DATA,
   .nest_start NL80211_PMSR_TYPE_FTM,
   .put NL80211_PMSR_FTM_REQ_ATTR_PREAMBLE (u32_bytes NL80211_PREAMBLE_HT),
   .put NL80211_PMSR_FTM_REQ_ATTR_NUM_FTMR_RETRIES (u8_bytes 5),
   .put NL80211_PMSR_FTM_REQ_ATTR_ASAP [],
   .nest_end 7, .nest_end 6, .nest_end 5,
   .nest_start NL80211_PMSR_PEER_ATTR_CHAN,
   .put NL80211_ATTR_CHANNEL_WIDTH (u32_bytes NL80211_CHAN_WIDTH_20),
   .put NL80211_ATTR_WIPHY_FREQ (u32_bytes 2412),
   .nest_end 14, .nest_end 3, .nest_end 2, .nest_end 1]

/-- An environment like `plain_env` in which the message has room for three
attributes only: the fourth call that appends one fails, which is the
`nla_nest_start(msg, index)` at the head of `set_ftm_peer`. -/
def cramped_env (incoming : List (List Frame)) : Env :=
  ⟨true, 28, 3, fun m _ => decide (3 ≤ m.attrs.length), true, 0, incoming⟩

/-- The kernel's acknowledgement: an `NLMSG_ERROR` message with error code 0. -/
def ack_frame : Frame := ⟨true, .error ⟨36, 0, 0, 16, []⟩⟩

/-- During a receive call of `start_ftm` on these messages one of
`error_handler`, `finish_handler`, `ack_handler` is invoked: an `NLMSG_ERROR`
or `NLMSG_DONE` message is reached before libnl leaves the call on an
unexpected sequence number or an `NLMSG_OVERRUN`. -/
def handler_runs : List Frame → Bool
  | [] => false
  | f :: fs =>
    if f.seq_ok then
      match f.body with
      | .error _ => true
      | .done => true
      | .overrun => false
      | .noop => handler_runs fs
      | .data _ => handler_runs fs
    else false

/-- In a receive call of `start_ftm` libnl goes past this message to the next
one without invoking `error_handler`, `finish_handler` or `ack_handler`: the
sequence number is the expected one and the message is an `NLMSG_NOOP` or a
payload message. -/
def passes_by (f : Frame) : Bool :=
  f.seq_ok &&
    match f.body with
    | .noop => true
    | .data _ => true
    | _ => false

/-- An `NLMSG_DONE` message with the expected sequence number. -/
def done_frame : Frame := ⟨true, .done⟩

/-- An `NLMSG_ERROR` message with the expected sequence number that carries
the error code `e` and nothing behind the minimal header. -/
def error_frame (e : Int) : Frame := ⟨true, .error ⟨36, 0, e, 16, []⟩⟩

/-! ## Theorems -/

theorem error_handler_ret (e : Nlmsgerr) :
    (error_handler e).ret = (if 0 < e.error then -EPROTO else e.error) := by
  unfold error_handler
  simp only []
  repeat' (first | (with_reducible rfl) | split)

theorem error_handler_rc (e : Nlmsgerr) : (error_handler e).rc = NL_STOP := by
  unfold error_handler
  simp only []
  repeat' (first | (with_reducible rfl) | split)

theorem error_handler_ret_le (e : Nlmsgerr) : (error_handler e).ret ≤ 0 := by
  rw [error_handler_ret]
  have : EPROTO = 71 := rfl
  split <;> omega

/-- C1: `error_handler` stores `-EPROTO`, a negative value different from 0
and from the code received, when the frame carries a strictly positive error
code, stores the code itself when it is zero or negative, and returns
`NL_STOP` in every case. -/
theorem error_handler_status (e : Nlmsgerr) :
    (error_handler e).ret = (if 0 < e.error then -EPROTO else e.error)
    ∧ (-EPROTO < 0 ∧ (0 < e.error → (error_handler e).ret < 0
        ∧ (error_handler e).ret ≠ 0 ∧ (error_handler e).ret ≠ e.error))
    ∧ (e.error ≤ 0 → (error_handler e).ret = e.error)
    ∧ (error_handler e).rc = NL_STOP := by
  have hret := error_handler_ret e
  refine ⟨hret, ⟨by decide, ?_⟩, ?_, error_handler_rc e⟩
  · intro h
    rw [hret, if_pos h]
    have : EPROTO = 71 := rfl
    omega
  · intro h
    rw [hret, if_neg (by omega)]

/-- C1 at the error code `+5` of the specification: the status is `-EPROTO`
and the handler stops. -/
theorem error_handler_status_witness :
    (error_handler ⟨36, 0, 5, 16, []⟩).ret = -71
    ∧ (error_handler ⟨36, 0, 5, 16, []⟩).rc = 2 := by
  have h := error_handler_status ⟨36, 0, 5, 16, []⟩
  exact ⟨h.1.trans (by decide), h.2.2.2.trans (by decide)⟩

/-! ### `nla_parse` -/

theorem nla_parse_snoc (m : Nat) (as : List Nlattr) (a : Nlattr) (t : Nat) :
    nla_parse m (as ++ [a]) t =
      if m < nla_type a then nla_parse m as t
      else if t = nla_type a then some a else nla_parse m as t := by
  unfold nla_parse
  rw [List.foldl_append]
  simp only [List.foldl_cons, List.foldl_nil]
  split <;> rfl

theorem nla_parse_nil (m t : Nat) : nla_parse m [] t = none := rfl

theorem nla_parse_eq_some (m : Nat) (as : List Nlattr) (t : Nat) (a : Nlattr) :
    nla_parse m as t = some a → a ∈ as ∧ nla_type a = t ∧ t ≤ m := by
  induction as using List.reverseRecOn with
  | nil => intro h; simp [nla_parse_nil] at h
  | append_singleton as b ih =>
    rw [nla_parse_snoc]
    split
    · intro h
      have := ih h
      exact ⟨List.mem_append_left _ this.1, this.2⟩
    · split
      · intro h
        cases h
        refine ⟨by simp, by omega, by omega⟩
      · intro h
        have := ih h
        exact ⟨List.mem_append_left _ this.1, this.2⟩

theorem nla_parse_absent (m : Nat) (as : List Nlattr) (t : Nat)
    (h : ¬ has_attr as t) : nla_parse m as t = none := by
  cases hp : nla_parse m as t with
  | none => rfl
  | some a =>
    have := nla_parse_eq_some m as t a hp
    exact absurd ⟨a, this.1, this.2.1⟩ h

theorem nla_parse_present (m : Nat) (as : List Nlattr) (t : Nat)
    (h : has_attr as t) (hm : t ≤ m) : (nla_parse m as t).isSome = true := by
  induction as using List.reverseRecOn with
  | nil => obtain ⟨a, ha, _⟩ := h; simp at ha
  | append_singleton as b ih =>
    rw [nla_parse_snoc]
    obtain ⟨a, ha, hta⟩ := h
    by_cases hb : t = nla_type b
    · rw [if_neg (by omega), if_pos hb]; rfl
    · have hmem : a ∈ as := by
        rcases List.mem_append.1 ha with h1 | h1
        · exact h1
        · simp at h1; subst h1; exact absurd hta.symm hb
      have := ih ⟨a, hmem, hta⟩
      rw [if_neg hb]
      split <;> exact this

/-! ### Distance of one peer -/

theorem peer_step_of_ftm (peer resp data ftm : Nlattr)
    (haddr : has_attr (nla_nested peer) NL80211_PMSR_PEER_ATTR_ADDR)
    (hresp : nla_parse NL80211_PMSR_PEER_ATTR_MAX (nla_nested peer)
      NL80211_PMSR_PEER_ATTR_RESP = some resp)
    (hdata : nla_parse NL80211_PMSR_RESP_ATTR_MAX (nla_nested resp)
      NL80211_PMSR_RESP_ATTR_DATA = some data)
    (hftm : nla_parse NL80211_PMSR_TYPE_MAX (nla_nested data)
      NL80211_PMSR_TYPE_FTM = some ftm) :
    handle_ftm_result_peer peer =
      .next [.distance (dist_result
        (nla_parse NL80211_PMSR_FTM_RESP_ATTR_MAX (nla_nested ftm)))] := by
  have ha := nla_parse_present NL80211_PMSR_PEER_ATTR_MAX _ _ haddr (by decide)
  obtain ⟨x, hx⟩ := Option.isSome_iff_exists.1 ha
  simp [handle_ftm_result_peer, nla_parse_nested, hresp, hdata, hftm, hx]

theorem dist_result_of_dist (ftm : Table) (a : Nlattr)
    (hd : ftm NL80211_PMSR_FTM_RESP_ATTR_DIST_AVG = some a) (h0 : nla_get_s64 a ≠ 0) :
    dist_result ftm = (nla_get_s64 a : ℚ) / 1000 := by
  simp [dist_result, hd, h0]

theorem dist_result_of_rtt (ftm : Table) (b : Nlattr)
    (hd : ∀ a, ftm NL80211_PMSR_FTM_RESP_ATTR_DIST_AVG = some a → nla_get_s64 a = 0)
    (hr : ftm NL80211_PMSR_FTM_RESP_ATTR_RTT_AVG = some b) :
    dist_result ftm = (nla_get_s64 b : ℚ) * 299792458 / 1000000000000 := by
  have hdist : (match ftm NL80211_PMSR_FTM_RESP_ATTR_DIST_AVG with
      | some a => nla_get_s64 a
      | none => 0) = 0 := by
    cases h : ftm NL80211_PMSR_FTM_RESP_ATTR_DIST_AVG with
    | none => rfl
    | some a => exact hd a h
  unfold dist_result
  simp only [hdist, hr, SOL]
  by_cases h0 : nla_get_s64 b = 0
  · simp [h0]
  · simp [h0]

theorem dist_result_of_none (ftm : Table)
    (hd : ∀ a, ftm NL80211_PMSR_FTM_RESP_ATTR_DIST_AVG = some a → nla_get_s64 a = 0)
    (hr : ftm NL80211_PMSR_FTM_RESP_ATTR_RTT_AVG = none) :
    dist_result ftm = 0 := by
  have hdist : (match ftm NL80211_PMSR_FTM_RESP_ATTR_DIST_AVG with
      | some a => nla_get_s64 a
      | none => 0) = 0 := by
    cases h : ftm NL80211_PMSR_FTM_RESP_ATTR_DIST_AVG with
    | none => rfl
    | some a => exact hd a h
  unfold dist_result
  simp [hdist, hr]

theorem le_value_u64 (n : Nat) (h : n < 18446744073709551616) :
    le_value ((le_bytes 8 n).take 8) = n := by
  simp only [le_bytes, List.take, le_value]
  omega

theorem nla_get_s64_put (t : Nat) (d : Int) (h1 : -9223372036854775808 ≤ d)
    (h2 : d < 9223372036854775808) : nla_get_s64 (.leaf t (s64_bytes d)) = d := by
  have hn : (d % 18446744073709551616).toNat < 18446744073709551616 := by omega
  simp only [nla_get_s64, nla_data, s64_bytes, le_value_u64 _ hn]
  split <;> omega

theorem response_peer_addr (ftm : List Nlattr) :
    has_attr (nla_nested (response_peer ftm)) NL80211_PMSR_PEER_ATTR_ADDR :=
  ⟨.leaf NL80211_PMSR_PEER_ATTR_ADDR [10, 131, 161, 21, 191, 80], List.mem_cons_self _ _, rfl⟩

/-- C2 (as stated, refuted): a peer whose FTM container holds `DIST_AVG = 0`
and `RTT_AVG = 5000` gets the distance `5000 * 299792458 / 10^12`, not
`0 / 1000`. -/
theorem dist_avg_zero_counterexample :
    nla_parse NL80211_PMSR_FTM_RESP_ATTR_MAX
        [.leaf NL80211_PMSR_FTM_RESP_ATTR_DIST_AVG (s64_bytes 0),
         .leaf NL80211_PMSR_FTM_RESP_ATTR_RTT_AVG (s64_bytes 5000)]
        NL80211_PMSR_FTM_RESP_ATTR_DIST_AVG
      = some (.leaf NL80211_PMSR_FTM_RESP_ATTR_DIST_AVG (s64_bytes 0))
    ∧ nla_get_s64 (.leaf NL80211_PMSR_FTM_RESP_ATTR_DIST_AVG (s64_bytes 0)) = 0
    ∧ handle_ftm_result_peer (response_peer
        [.leaf NL80211_PMSR_FTM_RESP_ATTR_DIST_AVG (s64_bytes 0),
         .leaf NL80211_PMSR_FTM_RESP_ATTR_RTT_AVG (s64_bytes 5000)])
      = .next [.distance (149896229 / 100000000)]
    ∧ ((149896229 : ℚ) / 100000000 ≠ 0 / 1000) := by
  refine ⟨rfl, by decide, ?_, by norm_num⟩
  rw [peer_step_of_ftm _ (response_resp _) (response_data _) (.nest NL80211_PMSR_TYPE_FTM _)
    (response_peer_addr _) rfl rfl rfl]
  have h : dist_result (nla_parse NL80211_PMSR_FTM_RESP_ATTR_MAX
      [.leaf NL80211_PMSR_FTM_RESP_ATTR_DIST_AVG (s64_bytes 0),
       .leaf NL80211_PMSR_FTM_RESP_ATTR_RTT_AVG (s64_bytes 5000)])
      = 149896229 / 100000000 := by
    rw [dist_result_of_rtt _ (.leaf NL80211_PMSR_FTM_RESP_ATTR_RTT_AVG (s64_bytes 5000))
      (by intro a ha; cases ha; decide) rfl]
    rw [nla_get_s64_put _ 5000 (by decide) (by decide)]
    norm_num
  simp only [nla_nested, h]

/-- C2 (amended): for a peer with an address leaf whose FTM response container
holds a `DIST_AVG` leaf, whether or not an `RTT_AVG` leaf is present: when the
value `d` of `DIST_AVG` is not zero the distance is `d / 1000`; when it is zero
the distance is `r * 299792458 / 10^12` for an `RTT_AVG` leaf of value `r` and
`0` without one. -/
theorem dist_avg_distance (peer resp data ftm a : Nlattr)
    (haddr : has_attr (nla_nested peer) NL80211_PMSR_PEER_ATTR_ADDR)
    (hresp : nla_parse NL80211_PMSR_PEER_ATTR_MAX (nla_nested peer)
      NL80211_PMSR_PEER_ATTR_RESP = some resp)
    (hdata : nla_parse NL80211_PMSR_RESP_ATTR_MAX (nla_nested resp)
      NL80211_PMSR_RESP_ATTR_DATA = some data)
    (hftm : nla_parse NL80211_PMSR_TYPE_MAX (nla_nested data)
      NL80211_PMSR_TYPE_FTM = some ftm)
    (hdist : nla_parse NL80211_PMSR_FTM_RESP_ATTR_MAX (nla_nested ftm)
      NL80211_PMSR_FTM_RESP_ATTR_DIST_AVG = some a) :
    (nla_get_s64 a ≠ 0 →
      handle_ftm_result_peer peer = .next [.distance ((nla_get_s64 a : ℚ) / 1000)])
    ∧ (nla_get_s64 a = 0 →
      (∀ b, nla_parse NL80211_PMSR_FTM_RESP_ATTR_MAX (nla_nested ftm)
            NL80211_PMSR_FTM_RESP_ATTR_RTT_AVG = some b →
          handle_ftm_result_peer peer =
            .next [.distance ((nla_get_s64 b : ℚ) * 299792458 / 1000000000000)])
      ∧ (¬ has_attr (nla_nested ftm) NL80211_PMSR_FTM_RESP_ATTR_RTT_AVG →
          handle_ftm_result_peer peer = .next [.distance 0])) := by
  rw [peer_step_of_ftm peer resp data ftm haddr hresp hdata hftm]
  refine ⟨fun h0 => ?_, fun h0 => ⟨fun b hb => ?_, fun hr => ?_⟩⟩
  · rw [dist_result_of_dist _ a hdist h0]
  · rw [dist_result_of_rtt _ b (fun x hx => by rw [hdist] at hx; cases hx; exact h0) hb]
  · rw [dist_result_of_none _ (fun x hx => by rw [hdist] at hx; cases hx; exact h0)
      (nla_parse_absent _ _ _ hr)]

/-- C2 (amended) at `DIST_AVG = 1500` with `RTT_AVG = 5000` also present: the
distance is `1.500`. -/
theorem dist_avg_distance_witness :
    handle_ftm_result_peer (response_peer
        [.leaf NL80211_PMSR_FTM_RESP_ATTR_DIST_AVG (s64_bytes 1500),
         .leaf NL80211_PMSR_FTM_RESP_ATTR_RTT_AVG (s64_bytes 5000)])
      = .next [.distance (3 / 2)] := by
  have h := (dist_avg_distance
    (response_peer
      [.leaf NL80211_PMSR_FTM_RESP_ATTR_DIST_AVG (s64_bytes 1500),
       .leaf NL80211_PMSR_FTM_RESP_ATTR_RTT_AVG (s64_bytes 5000)])
    (response_resp _) (response_data _) (.nest NL80211_PMSR_TYPE_FTM _)
    (.leaf NL80211_PMSR_FTM_RESP_ATTR_DIST_AVG (s64_bytes 1500))
    (response_peer_addr _) rfl rfl rfl rfl).1 (by decide)
  rw [h]
  rw [nla_get_s64_put _ 1500 (by decide) (by decide)]
  norm_num

/-- C3: for a peer with an address leaf whose FTM response container holds no
`DIST_AVG` leaf, the distance is `r * 299792458 / 10^12` (the round-trip time is
not halved) when an `RTT_AVG` leaf of value `r` is present, and `0` when there
is no `RTT_AVG` leaf either. -/
theorem rtt_avg_distance (peer resp data ftm : Nlattr)
    (haddr : has_attr (nla_nested peer) NL80211_PMSR_PEER_ATTR_ADDR)
    (hresp : nla_parse NL80211_PMSR_PEER_ATTR_MAX (nla_nested peer)
      NL80211_PMSR_PEER_ATTR_RESP = some resp)
    (hdata : nla_parse NL80211_PMSR_RESP_ATTR_MAX (nla_nested resp)
      NL80211_PMSR_RESP_ATTR_DATA = some data)
    (hftm : nla_parse NL80211_PMSR_TYPE_MAX (nla_nested data)
      NL80211_PMSR_TYPE_FTM = some ftm)
    (hdist : ¬ has_attr (nla_nested ftm) NL80211_PMSR_FTM_RESP_ATTR_DIST_AVG) :
    (∀ b, nla_parse NL80211_PMSR_FTM_RESP_ATTR_MAX (nla_nested ftm)
          NL80211_PMSR_FTM_RESP_ATTR_RTT_AVG = some b →
        handle_ftm_result_peer peer =
          .next [.distance ((nla_get_s64 b : ℚ) * 299792458 / 1000000000000)])
    ∧ (¬ has_attr (nla_nested ftm) NL80211_PMSR_FTM_RESP_ATTR_RTT_AVG →
        handle_ftm_result_peer peer = .next [.distance 0]) := by
  have hnone := nla_parse_absent NL80211_PMSR_FTM_RESP_ATTR_MAX _ _ hdist
  rw [peer_step_of_ftm peer resp data ftm haddr hresp hdata hftm]
  refine ⟨fun b hb => ?_, fun hr => ?_⟩
  · rw [dist_result_of_rtt _ b (fun x hx => by rw [hnone] at hx; cases hx) hb]
  · rw [dist_result_of_none _ (fun x hx => by rw [hnone] at hx; cases hx)
      (nla_parse_absent _ _ _ hr)]

/-- C3 at `RTT_AVG = 5000` without `DIST_AVG`: the distance is
`5000 * 299792458 / 10^12 = 1.49896229`; with both leaves absent it is `0`. -/
theorem rtt_avg_distance_witness :
    handle_ftm_result_peer (response_peer
        [.leaf NL80211_PMSR_FTM_RESP_ATTR_RTT_AVG (s64_bytes 5000)])
      = .next [.distance (149896229 / 100000000)]
    ∧ handle_ftm_result_peer (response_peer []) = .next [.distance 0] := by
  have hno : ∀ l : List Nlattr, (∀ x ∈ l, nla_type x ≠ NL80211_PMSR_FTM_RESP_ATTR_DIST_AVG) →
      ¬ has_attr l NL80211_PMSR_FTM_RESP_ATTR_DIST_AVG := by
    rintro l hl ⟨x, hx, hxt⟩
    exact hl x hx hxt
  constructor
  · have h := (rtt_avg_distance
      (response_peer [.leaf NL80211_PMSR_FTM_RESP_ATTR_RTT_AVG (s64_bytes 5000)])
      (response_resp _) (response_data _) (.nest NL80211_PMSR_TYPE_FTM _)
      (response_peer_addr _) rfl rfl rfl
      (hno _ (by intro x hx; simp [nla_nested] at hx; subst hx; decide))).1
      (.leaf NL80211_PMSR_FTM_RESP_ATTR_RTT_AVG (s64_bytes 5000)) rfl
    rw [h]
    rw [nla_get_s64_put _ 5000 (by decide) (by decide)]
    norm_num
  · exact (rtt_avg_distance (response_peer []) (response_resp _) (response_data _)
      (.nest NL80211_PMSR_TYPE_FTM _) (response_peer_addr _)
      rfl rfl rfl (hno _ (by intro x hx; simp [nla_nested] at hx))).2
      (by rintro ⟨x, hx, _⟩; simp [nla_nested] at hx)

/-! ### Peer loop -/

theorem distances_map_distance (ds : List ℚ) (tail : List Out) :
    distances (ds.map Out.distance ++ tail) = ds ++ distances tail := by
  induction ds with
  | nil => rfl
  | cons d ds ih => simp [distances, ih]

theorem carries_ftm_step (p : Nlattr)
    (haddr : has_attr (nla_nested p) NL80211_PMSR_PEER_ATTR_ADDR) (h : carries_ftm p) :
    ∃ q, handle_ftm_result_peer p = .next [.distance q] := by
  obtain ⟨resp, data, ftm, h1, h2, h3⟩ := h
  exact ⟨_, peer_step_of_ftm p resp data ftm haddr h1 h2 h3⟩

theorem peers_prefix (good : List Nlattr) (tail : List Nlattr)
    (h : ∀ p ∈ good, ∃ q, handle_ftm_result_peer p = .next [.distance q]) :
    ∀ out, ∃ ds : List ℚ, ds.length = good.length ∧
      handle_ftm_result_peers (good ++ tail) out =
        handle_ftm_result_peers tail (out ++ ds.map Out.distance) := by
  induction good with
  | nil => intro out; exact ⟨[], rfl, by simp⟩
  | cons p good ih =>
    intro out
    obtain ⟨q, hq⟩ := h p (List.mem_cons_self _ _)
    obtain ⟨ds, hlen, hds⟩ := ih (fun x hx => h x (List.mem_cons_of_mem _ hx)) (out ++ [.distance q])
    refine ⟨q :: ds, by simp [hlen], ?_⟩
    have e : handle_ftm_result_peers (p :: good ++ tail) out
        = handle_ftm_result_peers (good ++ tail) (out ++ [.distance q]) := by
      simp [handle_ftm_result_peers, hq]
    rw [e, hds]
    simp

theorem bad_peer_step (bad : Nlattr)
    (hbad : ¬ has_attr (nla_nested bad) NL80211_PMSR_PEER_ATTR_ADDR
      ∨ ¬ has_attr (nla_nested bad) NL80211_PMSR_PEER_ATTR_RESP) :
    (¬ has_attr (nla_nested bad) NL80211_PMSR_PEER_ATTR_ADDR →
      handle_ftm_result_peer bad = .ret 1 [.text "  Peer: no MAC address\n"])
    ∧ (has_attr (nla_nested bad) NL80211_PMSR_PEER_ATTR_ADDR →
      handle_ftm_result_peer bad = .ret 1 [.text " no response!\n"]) := by
  constructor
  · intro h
    have := nla_parse_absent NL80211_PMSR_PEER_ATTR_MAX _ _ h
    simp [handle_ftm_result_peer, nla_parse_nested, this]
  · intro h
    have hr : ¬ has_attr (nla_nested bad) NL80211_PMSR_PEER_ATTR_RESP := by
      rcases hbad with h1 | h1
      · exact absurd h h1
      · exact h1
    have h1 := nla_parse_absent NL80211_PMSR_PEER_ATTR_MAX _ _ hr
    obtain ⟨x, hx⟩ := Option.isSome_iff_exists.1
      (nla_parse_present NL80211_PMSR_PEER_ATTR_MAX _ _ h (by decide))
    simp [handle_ftm_result_peer, nla_parse_nested, h1, hx]

theorem handle_ftm_result_peers_eq (msg : Genlmsg) (status : Int) (pm peers : Nlattr)
    (hcmd : msg.cmd = NL80211_CMD_PEER_MEASUREMENT_RESULT)
    (hcookie : has_attr msg.attrs NL80211_ATTR_COOKIE)
    (hpm : nla_parse NL80211_ATTR_MAX msg.attrs NL80211_ATTR_PEER_MEASUREMENTS = some pm)
    (hpeers : nla_parse NL80211_PMSR_ATTR_MAX (nla_nested pm) NL80211_PMSR_ATTR_PEERS
      = some peers) :
    handle_ftm_result msg status =
      ⟨(handle_ftm_result_peers (nla_nested peers) []).1, status,
        (handle_ftm_result_peers (nla_nested peers) []).2⟩ := by
  obtain ⟨x, hx⟩ := Option.isSome_iff_exists.1
    (nla_parse_present NL80211_ATTR_MAX _ _ hcookie (by decide))
  have h1 : ¬ (NL80211_CMD_PEER_MEASUREMENT_RESULT = NL80211_CMD_PEER_MEASUREMENT_COMPLETE) := by
    decide
  simp [handle_ftm_result, hcmd, h1, hx, hpm, nla_parse_nested, hpeers]

/-- C4 (as stated, refuted): in a result message with two peers where the
first has an address and a response container without a data container and the
second has neither address nor response, the first peer lacking an address or
a response is the second one, yet the handler does not return a failure value
there after one distance line: it ends at the first peer, in a read through a
NULL pointer, with no distance line. -/
theorem fail_fast_counterexample :
    has_attr (nla_nested (.nest 1 [.leaf NL80211_PMSR_PEER_ATTR_ADDR [10, 131, 161, 21, 191, 80],
        .nest NL80211_PMSR_PEER_ATTR_RESP []])) NL80211_PMSR_PEER_ATTR_ADDR
    ∧ has_attr (nla_nested (.nest 1 [.leaf NL80211_PMSR_PEER_ATTR_ADDR [10, 131, 161, 21, 191, 80],
        .nest NL80211_PMSR_PEER_ATTR_RESP []])) NL80211_PMSR_PEER_ATTR_RESP
    ∧ ¬ has_attr (nla_nested (.nest 2 [])) NL80211_PMSR_PEER_ATTR_ADDR
    ∧ (handle_ftm_result (result_msg
        [.nest 1 [.leaf NL80211_PMSR_PEER_ATTR_ADDR [10, 131, 161, 21, 191, 80],
          .nest NL80211_PMSR_PEER_ATTR_RESP []],
         .nest 2 []]) 1).exit = .null_deref
    ∧ (handle_ftm_result (result_msg
        [.nest 1 [.leaf NL80211_PMSR_PEER_ATTR_ADDR [10, 131, 161, 21, 191, 80],
          .nest NL80211_PMSR_PEER_ATTR_RESP []],
         .nest 2 []]) 1).exit ≠ .returned 1
    ∧ (distances (handle_ftm_result (result_msg
        [.nest 1 [.leaf NL80211_PMSR_PEER_ATTR_ADDR [10, 131, 161, 21, 191, 80],
          .nest NL80211_PMSR_PEER_ATTR_RESP []],
         .nest 2 []]) 1).out).length ≠ 1 := by
  refine ⟨⟨_, List.mem_cons_self _ _, rfl⟩,
    ⟨.nest NL80211_PMSR_PEER_ATTR_RESP [], by simp [nla_nested], rfl⟩, ?_, rfl, ?_, ?_⟩
  · rintro ⟨x, hx, _⟩
    simp [nla_nested] at hx
  · have h : (handle_ftm_result (result_msg
        [.nest 1 [.leaf NL80211_PMSR_PEER_ATTR_ADDR [10, 131, 161, 21, 191, 80],
          .nest NL80211_PMSR_PEER_ATTR_RESP []],
         .nest 2 []]) 1).exit = .null_deref := rfl
    rw [h]
    decide
  · have h : (handle_ftm_result (result_msg
        [.nest 1 [.leaf NL80211_PMSR_PEER_ATTR_ADDR [10, 131, 161, 21, 191, 80],
          .nest NL80211_PMSR_PEER_ATTR_RESP []],
         .nest 2 []]) 1).out = [] := rfl
    rw [h]
    decide

/-- C4 (amended): in a result message with a cookie whose peers are
`good ++ bad :: rest`, where every peer of `good` has an address leaf and a
response container with a data container holding an FTM container, and `bad`
lacks an address leaf or a response container, `handle_ftm_result` returns the
failure value 1 at `bad`; its output is one distance line for each peer of
`good` followed by the diagnostic for `bad`, so there is no distance line for
`bad` or for a peer of `rest`; the diagnostic is the missing-address one
whenever the address is missing, and the missing-response one otherwise. -/
theorem fail_fast_peers (msg : Genlmsg) (status : Int) (pm peers : Nlattr)
    (good : List Nlattr) (bad : Nlattr) (rest : List Nlattr)
    (hcmd : msg.cmd = NL80211_CMD_PEER_MEASUREMENT_RESULT)
    (hcookie : has_attr msg.attrs NL80211_ATTR_COOKIE)
    (hpm : nla_parse NL80211_ATTR_MAX msg.attrs NL80211_ATTR_PEER_MEASUREMENTS = some pm)
    (hpeers : nla_parse NL80211_PMSR_ATTR_MAX (nla_nested pm) NL80211_PMSR_ATTR_PEERS
      = some peers)
    (hsplit : nla_nested peers = good ++ bad :: rest)
    (hgood : ∀ p ∈ good, has_attr (nla_nested p) NL80211_PMSR_PEER_ATTR_ADDR
      ∧ has_attr (nla_nested p) NL80211_PMSR_PEER_ATTR_RESP ∧ carries_ftm p)
    (hbad : ¬ has_attr (nla_nested bad) NL80211_PMSR_PEER_ATTR_ADDR
      ∨ ¬ has_attr (nla_nested bad) NL80211_PMSR_PEER_ATTR_RESP) :
    (handle_ftm_result msg status).exit = .returned 1
    ∧ (handle_ftm_result msg status).status = status
    ∧ ∃ ds : List ℚ, ds.length = good.length
      ∧ distances (handle_ftm_result msg status).out = ds
      ∧ (¬ has_attr (nla_nested bad) NL80211_PMSR_PEER_ATTR_ADDR →
          (handle_ftm_result msg status).out =
            ds.map Out.distance ++ [.text "  Peer: no MAC address\n"])
      ∧ (has_attr (nla_nested bad) NL80211_PMSR_PEER_ATTR_ADDR →
          (handle_ftm_result msg status).out =
            ds.map Out.distance ++ [.text " no response!\n"]) := by
  rw [handle_ftm_result_peers_eq msg status pm peers hcmd hcookie hpm hpeers, hsplit]
  obtain ⟨ds, hlen, hds⟩ := peers_prefix good (bad :: rest)
    (fun p hp => carries_ftm_step p (hgood p hp).1 (hgood p hp).2.2) []
  have hb := bad_peer_step bad hbad
  rw [hds]
  by_cases ha : has_attr (nla_nested bad) NL80211_PMSR_PEER_ATTR_ADDR
  · have h1 : handle_ftm_result_peers (bad :: rest) ([] ++ ds.map Out.distance)
        = (.returned 1, ds.map Out.distance ++ [.text " no response!\n"]) := by
      simp [handle_ftm_result_peers, hb.2 ha]
    rw [h1]
    refine ⟨rfl, rfl, ds, hlen, ?_, fun h => absurd ha h, fun _ => rfl⟩
    rw [distances_map_distance]
    simp [distances]
  · have h1 : handle_ftm_result_peers (bad :: rest) ([] ++ ds.map Out.distance)
        = (.returned 1, ds.map Out.distance ++ [.text "  Peer: no MAC address\n"]) := by
      simp [handle_ftm_result_peers, hb.1 ha]
    rw [h1]
    refine ⟨rfl, rfl, ds, hlen, ?_, fun _ => rfl, fun h => absurd h ha⟩
    rw [distances_map_distance]
    simp [distances]

/-- C4 (amended) on the two-peer message of the specification, where the first
peer has no response container: the handler returns 1 and prints no distance;
and on a three-peer message whose second peer has no response container: the
handler returns 1 after one distance line. -/
theorem fail_fast_peers_witness :
    (handle_ftm_result (result_msg
        [.nest 1 [.leaf NL80211_PMSR_PEER_ATTR_ADDR [10, 131, 161, 21, 191, 80]],
         response_peer [.leaf NL80211_PMSR_FTM_RESP_ATTR_DIST_AVG (s64_bytes 1500)]]) 1).exit
      = .returned 1
    ∧ distances (handle_ftm_result (result_msg
        [.nest 1 [.leaf NL80211_PMSR_PEER_ATTR_ADDR [10, 131, 161, 21, 191, 80]],
         response_peer [.leaf NL80211_PMSR_FTM_RESP_ATTR_DIST_AVG (s64_bytes 1500)]]) 1).out
      = []
    ∧ (handle_ftm_result (result_msg
        [response_peer [],
         .nest 2 [.leaf NL80211_PMSR_PEER_ATTR_ADDR [10, 131, 161, 21, 191, 80]],
         response_peer []]) 1).exit = .returned 1
    ∧ (distances (handle_ftm_result (result_msg
        [response_peer [],
         .nest 2 [.leaf NL80211_PMSR_PEER_ATTR_ADDR [10, 131, 161, 21, 191, 80]],
         response_peer []]) 1).out).length = 1 := by
  have hresp : ∀ l : List Nlattr, (∀ x ∈ l, nla_type x ≠ NL80211_PMSR_PEER_ATTR_RESP) →
      ¬ has_attr l NL80211_PMSR_PEER_ATTR_RESP := by
    rintro l hl ⟨x, hx, hxt⟩
    exact hl x hx hxt
  have h := fail_fast_peers
    (result_msg
      [.nest 1 [.leaf NL80211_PMSR_PEER_ATTR_ADDR [10, 131, 161, 21, 191, 80]],
       response_peer [.leaf NL80211_PMSR_FTM_RESP_ATTR_DIST_AVG (s64_bytes 1500)]]) 1
    (.nest NL80211_ATTR_PEER_MEASUREMENTS [.nest NL80211_PMSR_ATTR_PEERS
      [.nest 1 [.leaf NL80211_PMSR_PEER_ATTR_ADDR [10, 131, 161, 21, 191, 80]],
       response_peer [.leaf NL80211_PMSR_FTM_RESP_ATTR_DIST_AVG (s64_bytes 1500)]]])
    (.nest NL80211_PMSR_ATTR_PEERS
      [.nest 1 [.leaf NL80211_PMSR_PEER_ATTR_ADDR [10, 131, 161, 21, 191, 80]],
       response_peer [.leaf NL80211_PMSR_FTM_RESP_ATTR_DIST_AVG (s64_bytes 1500)]])
    [] (.nest 1 [.leaf NL80211_PMSR_PEER_ATTR_ADDR [10, 131, 161, 21, 191, 80]])
    [response_peer [.leaf NL80211_PMSR_FTM_RESP_ATTR_DIST_AVG (s64_bytes 1500)]]
    rfl ⟨_, List.mem_cons_self _ _, rfl⟩ rfl rfl rfl
    (by intro p hp; simp at hp)
    (Or.inr (hresp _ (by intro x hx; simp [nla_nested] at hx; subst hx; decide)))
  have h' := fail_fast_peers
    (result_msg
      [response_peer [],
       .nest 2 [.leaf NL80211_PMSR_PEER_ATTR_ADDR [10, 131, 161, 21, 191, 80]],
       response_peer []]) 1
    (.nest NL80211_ATTR_PEER_MEASUREMENTS [.nest NL80211_PMSR_ATTR_PEERS
      [response_peer [],
       .nest 2 [.leaf NL80211_PMSR_PEER_ATTR_ADDR [10, 131, 161, 21, 191, 80]],
       response_peer []]])
    (.nest NL80211_PMSR_ATTR_PEERS
      [response_peer [],
       .nest 2 [.leaf NL80211_PMSR_PEER_ATTR_ADDR [10, 131, 161, 21, 191, 80]],
       response_peer []])
    [response_peer []]
    (.nest 2 [.leaf NL80211_PMSR_PEER_ATTR_ADDR [10, 131, 161, 21, 191, 80]])
    [response_peer []]
    rfl ⟨_, List.mem_cons_self _ _, rfl⟩ rfl rfl rfl
    (by
      intro p hp
      simp at hp
      subst hp
      exact ⟨response_peer_addr [], ⟨response_resp [], by simp [nla_nested, response_peer,
        response_resp], rfl⟩, ⟨response_resp [], response_data [],
        .nest NL80211_PMSR_TYPE_FTM [], rfl, rfl, rfl⟩⟩)
    (Or.inr (hresp _ (by intro x hx; simp [nla_nested] at hx; subst hx; decide)))
  obtain ⟨h1, _, ds, hlen, hds, _⟩ := h
  obtain ⟨h1', _, ds', hlen', hds', _⟩ := h'
  refine ⟨h1, ?_, h1', ?_⟩
  · rw [hds]
    exact List.length_eq_zero.1 hlen
  · rw [hds', hlen']
    rfl

/-! ### Top-level attributes -/

/-- C5: on a `PEER_MEASUREMENT_RESULT` message without a `COOKIE` attribute
`handle_ftm_result` returns -1 after the no-cookie diagnostic, whether or not
`PEER_MEASUREMENTS` is there; with a cookie and without `PEER_MEASUREMENTS` it
returns -1 after the no-measurement-data diagnostic; the two outcomes differ
(in the diagnostic, the return value being -1 in both); in both the status is
left alone and nothing else is printed, so no peer is examined and no distance
is produced. -/
theorem missing_top_level (msg : Genlmsg) (status : Int)
    (hcmd : msg.cmd = NL80211_CMD_PEER_MEASUREMENT_RESULT) :
    (¬ has_attr msg.attrs NL80211_ATTR_COOKIE →
      handle_ftm_result msg status =
        ⟨.returned (-1), status, [.text "Peer measurements: no cookie!\n"]⟩)
    ∧ (has_attr msg.attrs NL80211_ATTR_COOKIE →
        ¬ has_attr msg.attrs NL80211_ATTR_PEER_MEASUREMENTS →
      handle_ftm_result msg status =
        ⟨.returned (-1), status, [.text "Peer measurements: no measurement data!\n"]⟩)
    ∧ (⟨.returned (-1), status, [.text "Peer measurements: no cookie!\n"]⟩ : Run)
        ≠ ⟨.returned (-1), status, [.text "Peer measurements: no measurement data!\n"]⟩
    ∧ distances [.text "Peer measurements: no cookie!\n"] = []
    ∧ distances [.text "Peer measurements: no measurement data!\n"] = [] := by
  have h1 : ¬ (NL80211_CMD_PEER_MEASUREMENT_RESULT = NL80211_CMD_PEER_MEASUREMENT_COMPLETE) := by
    decide
  refine ⟨fun h => ?_, fun hc h => ?_, ?_, rfl, rfl⟩
  · have := nla_parse_absent NL80211_ATTR_MAX _ _ h
    simp [handle_ftm_result, hcmd, h1, this]
  · have := nla_parse_absent NL80211_ATTR_MAX _ _ h
    obtain ⟨x, hx⟩ := Option.isSome_iff_exists.1
      (nla_parse_present NL80211_ATTR_MAX _ _ hc (by decide))
    simp [handle_ftm_result, hcmd, h1, this, hx]
  · intro h
    injection h with _ _ h3
    revert h3
    decide

/-- C5 on a message with no attribute at all and on one with only a cookie. -/
theorem missing_top_level_witness :
    handle_ftm_result ⟨NL80211_CMD_PEER_MEASUREMENT_RESULT, []⟩ 1 =
        ⟨.returned (-1), 1, [.text "Peer measurements: no cookie!\n"]⟩
    ∧ handle_ftm_result ⟨NL80211_CMD_PEER_MEASUREMENT_RESULT,
          [.leaf NL80211_ATTR_COOKIE [1, 0, 0, 0, 0, 0, 0, 0]]⟩ 1 =
        ⟨.returned (-1), 1, [.text "Peer measurements: no measurement data!\n"]⟩ := by
  constructor
  · exact (missing_top_level ⟨NL80211_CMD_PEER_MEASUREMENT_RESULT, []⟩ 1 rfl).1
      (by rintro ⟨x, hx, _⟩; simp at hx)
  · exact (missing_top_level ⟨NL80211_CMD_PEER_MEASUREMENT_RESULT,
        [.leaf NL80211_ATTR_COOKIE [1, 0, 0, 0, 0, 0, 0, 0]]⟩ 1 rfl).2.1
      ⟨_, List.mem_cons_self _ _, rfl⟩
      (by rintro ⟨x, hx, hxt⟩; simp at hx; subst hx; revert hxt; decide)

/-! ### Missing data or FTM container -/

/-- C6 (evaluation at the failing inputs): a peer with an address and a
response container that has no data container, and a peer whose data
container has no FTM container, both end the handler in a read through a NULL
pointer, not in a failure return. -/
theorem missing_data_container_null_deref :
    handle_ftm_result_peer
        (.nest 1 [.leaf NL80211_PMSR_PEER_ATTR_ADDR [10, 131, 161, 21, 191, 80],
          .nest NL80211_PMSR_PEER_ATTR_RESP []])
      = .null_deref
    ∧ handle_ftm_result_peer
        (.nest 1 [.leaf NL80211_PMSR_PEER_ATTR_ADDR [10, 131, 161, 21, 191, 80],
          .nest NL80211_PMSR_PEER_ATTR_RESP [.nest NL80211_PMSR_RESP_ATTR_DATA []]])
      = .null_deref
    ∧ handle_ftm_result (result_msg
        [.nest 1 [.leaf NL80211_PMSR_PEER_ATTR_ADDR [10, 131, 161, 21, 191, 80],
          .nest NL80211_PMSR_PEER_ATTR_RESP []]]) 1
      = ⟨.null_deref, 1, []⟩ :=
  ⟨rfl, rfl, rfl⟩

/-! ### Request tree -/

theorem start_ftm_wait_sent (sent : Option nl_msg) (out : List Out)
    (incoming : List (List Frame)) : (start_ftm_wait sent out incoming).sent = sent := by
  unfold start_ftm_wait
  repeat' (first | (with_reducible rfl) | split)

theorem le_value_u32 (n : Nat) (h : n < 4294967296) : le_value ((le_bytes 4 n).take 4) = n := by
  simp only [le_bytes, List.take, le_value]
  omega

theorem nla_get_u32_put (t : Nat) (v : Nat) (h : v < 4294967296) :
    nla_get_u32 (.leaf t (u32_bytes v)) = v := by
  have e : ((v : Int) % 4294967296).toNat = v := by omega
  simp only [nla_get_u32, nla_data, u32_bytes, e]
  exact le_value_u32 v h

theorem start_ftm_built (env : Env)
    (halloc : env.nlmsg_alloc = true) (hdev : env.if_nametoindex ≠ 0)
    (hroom : ∀ m n, env.no_room m n = false) (hcb : env.nl_cb_alloc = true) :
    start_ftm env =
      if env.nl_send_auto < 0 then
        ⟨some (.returned 1),
          some ⟨env.nl80211_id, NL80211_CMD_PEER_MEASUREMENT_START,
            request_log env.if_nametoindex⟩, [], env.incoming⟩
      else
        start_ftm_wait
          (some ⟨env.nl80211_id, NL80211_CMD_PEER_MEASUREMENT_START,
            request_log env.if_nametoindex⟩) [] env.incoming := by
  have hd : ¬ ((env.if_nametoindex : Int) = 0) := by omega
  unfold start_ftm
  simp only [halloc, hcb, hd, Bool.not_true, Bool.false_eq_true, if_false, nla_put, hroom,
    set_ftm_config, set_ftm_peer, nla_nest_start, nla_nest_end, List.nil_append,
    List.cons_append, List.length_cons, List.length_nil, ne_eq, not_true_eq_false]
  rfl

/-- C8: when every allocation succeeds, the device index is a non-zero
`unsigned int`, no put or nest-open fails and the send is reached,
the message handed to `nl_send_auto` is a `PEER_MEASUREMENT_START` message in
which every container is closed innermost first and none is left open, its
attribute tree is the request nesting of the specification, and the leaves read
back from that tree are the values put: device index, MAC address, preamble,
retry count, ASAP flag, channel width and frequency. -/
theorem request_round_trip (env : Env)
    (halloc : env.nlmsg_alloc = true) (hdev : env.if_nametoindex ≠ 0)
    (hu32 : env.if_nametoindex < 4294967296)
    (hroom : ∀ m n, env.no_room m n = false) (hcb : env.nl_cb_alloc = true) :
    ∃ msg, (start_ftm env).sent = some msg
      ∧ msg.family = env.nl80211_id ∧ msg.cmd = NL80211_CMD_PEER_MEASUREMENT_START
      ∧ open_nests msg.attrs = some []
      ∧ attrs_of msg.attrs = some (request_tree env.if_nametoindex)
      ∧ (find_path (request_tree env.if_nametoindex) [NL80211_ATTR_IFINDEX]).map nla_get_u32
          = some env.if_nametoindex
      ∧ (find_path (request_tree env.if_nametoindex)
            [NL80211_ATTR_PEER_MEASUREMENTS, NL80211_PMSR_ATTR_PEERS, 1,
              NL80211_PMSR_PEER_ATTR_ADDR]).map nla_data
          = some [0x0a, 0x83, 0xa1, 0x15, 0xbf, 0x50]
      ∧ (find_path (request_tree env.if_nametoindex)
            [NL80211_ATTR_PEER_MEASUREMENTS, NL80211_PMSR_ATTR_PEERS, 1,
              NL80211_PMSR_PEER_ATTR_REQ, NL80211_PMSR_REQ_ATTR_DATA, NL80211_PMSR_TYPE_FTM,
              NL80211_PMSR_FTM_REQ_ATTR_PREAMBLE]).map nla_get_u32
          = some NL80211_PREAMBLE_HT
      ∧ (find_path (request_tree env.if_nametoindex)
            [NL80211_ATTR_PEER_MEASUREMENTS, NL80211_PMSR_ATTR_PEERS, 1,
              NL80211_PMSR_PEER_ATTR_REQ, NL80211_PMSR_REQ_ATTR_DATA, NL80211_PMSR_TYPE_FTM,
              NL80211_PMSR_FTM_REQ_ATTR_NUM_FTMR_RETRIES]).map nla_get_u8
          = some 5
      ∧ (find_path (request_tree env.if_nametoindex)
            [NL80211_ATTR_PEER_MEASUREMENTS, NL80211_PMSR_ATTR_PEERS, 1,
              NL80211_PMSR_PEER_ATTR_REQ, NL80211_PMSR_REQ_ATTR_DATA, NL80211_PMSR_TYPE_FTM,
              NL80211_PMSR_FTM_REQ_ATTR_ASAP]).isSome = true
      ∧ (find_path (request_tree env.if_nametoindex)
            [NL80211_ATTR_PEER_MEASUREMENTS, NL80211_PMSR_ATTR_PEERS, 1,
              NL80211_PMSR_PEER_ATTR_CHAN, NL80211_ATTR_CHANNEL_WIDTH]).map nla_get_u32
          = some NL80211_CHAN_WIDTH_20
      ∧ (find_path (request_tree env.if_nametoindex)
            [NL80211_ATTR_PEER_MEASUREMENTS, NL80211_PMSR_ATTR_PEERS, 1,
              NL80211_PMSR_PEER_ATTR_CHAN, NL80211_ATTR_WIPHY_FREQ]).map nla_get_u32
          = some 2412 := by
  have hsent : (start_ftm env).sent = some
      ⟨env.nl80211_id, NL80211_CMD_PEER_MEASUREMENT_START, request_log env.if_nametoindex⟩ := by
    rw [start_ftm_built env halloc hdev hroom hcb]
    split
    · rfl
    · rw [start_ftm_wait_sent]
  refine ⟨_, hsent, rfl, rfl, rfl, rfl, ?_, rfl, ?_, ?_, rfl, ?_, ?_⟩
  · show (some (nla_get_u32 (.leaf NL80211_ATTR_IFINDEX (u32_bytes env.if_nametoindex)))) = _
    rw [nla_get_u32_put _ _ hu32]
  · exact congrArg some (nla_get_u32_put _ 1 (by decide))
  · exact congrArg some (show nla_get_u8 (.leaf _ (u8_bytes 5)) = 5 by decide)
  · exact congrArg some (nla_get_u32_put _ 1 (by decide))
  · exact congrArg some (nla_get_u32_put _ 2412 (by decide))

/-- C8 on a run with device index 3: the message sent carries the request
nesting and the index reads back as 3. -/
theorem request_round_trip_witness :
    ∃ msg, (start_ftm (plain_env [])).sent = some msg
      ∧ attrs_of msg.attrs = some (request_tree 3)
      ∧ open_nests msg.attrs = some []
      ∧ (find_path (request_tree 3) [NL80211_ATTR_IFINDEX]).map nla_get_u32 = some 3 := by
  obtain ⟨msg, h1, _, _, h4, h5, h6, _⟩ :=
    request_round_trip (plain_env []) rfl (by decide) (by decide) (fun _ _ => rfl) rfl
  exact ⟨msg, h1, h5, h4, h6⟩

/-! ### Failure while the request is built -/

/-- C7 (evaluation at the failing input): when the message has room for three
attributes only, `nla_nest_start` fails at the head of `set_ftm_peer`, which
returns -1; `set_ftm_config` closes its two containers and returns 0;
`start_ftm` hands the message without the peer to `nl_send_auto` and, on the
kernel's acknowledgement, returns 0. -/
theorem build_failure_sent :
    (set_ftm_peer (cramped_env []).no_room
        ⟨28, NL80211_CMD_PEER_MEASUREMENT_START,
          [.put NL80211_ATTR_IFINDEX (u32_bytes 3),
           .nest_start NL80211_ATTR_PEER_MEASUREMENTS,
           .nest_start NL80211_PMSR_ATTR_PEERS]⟩ 1).ret = -1
    ∧ (set_ftm_config (cramped_env []).no_room
        ⟨28, NL80211_CMD_PEER_MEASUREMENT_START,
          [.put NL80211_ATTR_IFINDEX (u32_bytes 3)]⟩).ret = 0
    ∧ (start_ftm (cramped_env [[ack_frame]])).sent =
        some ⟨28, NL80211_CMD_PEER_MEASUREMENT_START,
          [.put NL80211_ATTR_IFINDEX (u32_bytes 3),
           .nest_start NL80211_ATTR_PEER_MEASUREMENTS,
           .nest_start NL80211_PMSR_ATTR_PEERS,
           .nest_end 2, .nest_end 1]⟩
    ∧ (start_ftm (cramped_env [[ack_frame]])).ret = some (.returned 0)
    ∧ (start_ftm (cramped_env [[ack_frame]])).out = [.text "put failed!\n"] := by
  refine ⟨by decide, by decide, by decide, by decide, by decide⟩

/-! ### The ACK loop -/

theorem dispatch_start (f : Frame) (s : Sess) :
    dispatch start_ftm_cb f s =
      if f.seq_ok = true then
        match f.body with
        | .done => (⟨0, s.out ++ []⟩, .next)
        | .noop => (s, .next)
        | .overrun => (s, .stop)
        | .error e =>
          if e.error ≠ 0 then
            (⟨(error_handler e).ret, s.out ++ (error_handler e).out⟩, .stop)
          else (⟨0, s.out ++ []⟩, .stop)
        | .data _ => (s, .next)
      else (s, .stop) := by
  obtain ⟨seq_ok, body⟩ := f
  cases seq_ok with
  | false => rfl
  | true =>
    cases body with
    | error e =>
      by_cases he : e.error = 0
      · simp only [dispatch, start_ftm_cb, he]
        rfl
      · have hrc : nl_cb_call (error_handler e).rc = .stop := by
          rw [error_handler_rc]; rfl
        simp only [dispatch, start_ftm_cb, he, hrc]
        rfl
    | done => rfl
    | noop => rfl
    | overrun => rfl
    | data m => rfl

theorem nl_recvmsgs_cons (cb : nl_cb) (f : Frame) (fs : List Frame) (s : Sess) :
    nl_recvmsgs cb (f :: fs) s =
      match dispatch cb f s with
      | (s, .next) => nl_recvmsgs cb fs s
      | (s, .stop) => (s, false, fs)
      | (s, .crash) => (s, true, fs) := rfl

theorem nl_recvmsgs_start_le (b : List Frame) :
    ∀ s : Sess, s.status ≤ 0 →
      (nl_recvmsgs start_ftm_cb b s).1.status ≤ 0
        ∧ (nl_recvmsgs start_ftm_cb b s).2.1 = false := by
  induction b with
  | nil => intro s hs; exact ⟨hs, rfl⟩
  | cons f fs ih =>
    intro s hs
    rw [nl_recvmsgs_cons, dispatch_start]
    obtain ⟨seq_ok, body⟩ := f
    cases seq_ok with
    | false => exact ⟨hs, rfl⟩
    | true =>
      cases body with
      | error e =>
        by_cases he : e.error = 0
        · simp only [he, if_true, ne_eq, not_true_eq_false, if_false]
          exact ⟨le_refl _, trivial⟩
        · simp only [he, if_true, ne_eq, not_false_eq_true]
          exact ⟨error_handler_ret_le e, trivial⟩
      | done => exact ih _ (le_refl _)
      | noop => exact ih _ hs
      | overrun => exact ⟨hs, rfl⟩
      | data m => exact ih _ hs

theorem nl_recvmsgs_start_idle (b : List Frame) (h : handler_runs b = false) :
    ∀ s : Sess, (nl_recvmsgs start_ftm_cb b s).1 = s
      ∧ (nl_recvmsgs start_ftm_cb b s).2.1 = false := by
  induction b with
  | nil => intro s; exact ⟨rfl, rfl⟩
  | cons f fs ih =>
    intro s
    rw [nl_recvmsgs_cons, dispatch_start]
    obtain ⟨seq_ok, body⟩ := f
    cases seq_ok with
    | false => exact ⟨rfl, rfl⟩
    | true =>
      cases body with
      | error e => simp [handler_runs] at h
      | done => simp [handler_runs] at h
      | noop => exact ih (by simpa [handler_runs] using h) s
      | overrun => exact ⟨rfl, rfl⟩
      | data m => exact ih (by simpa [handler_runs] using h) s

theorem nl_recvmsgs_start_runs (b : List Frame) (h : handler_runs b = true) :
    ∀ s : Sess,
      (nl_recvmsgs start_ftm_cb b s).1.status ≤ 0
        ∧ (nl_recvmsgs start_ftm_cb b s).2.1 = false := by
  induction b with
  | nil => simp [handler_runs] at h
  | cons f fs ih =>
    intro s
    rw [nl_recvmsgs_cons, dispatch_start]
    obtain ⟨seq_ok, body⟩ := f
    cases seq_ok with
    | false => simp [handler_runs] at h
    | true =>
      cases body with
      | error e =>
        by_cases he : e.error = 0
        · simp only [he, if_true, ne_eq, not_true_eq_false, if_false]
          exact ⟨le_refl _, trivial⟩
        · simp only [he, if_true, ne_eq, not_false_eq_true]
          exact ⟨error_handler_ret_le e, trivial⟩
      | done => exact nl_recvmsgs_start_le fs _ (le_refl _)
      | noop => exact ih (by simpa [handler_runs] using h) s
      | overrun => simp [handler_runs] at h
      | data m => exact ih (by simpa [handler_runs] using h) s

theorem nl_recvmsgs_start_quiet (quiet : List Frame) (rest : List Frame)
    (h : ∀ x ∈ quiet, passes_by x = true) :
    ∀ s : Sess, nl_recvmsgs start_ftm_cb (quiet ++ rest) s = nl_recvmsgs start_ftm_cb rest s := by
  induction quiet with
  | nil => intro s; rfl
  | cons f fs ih =>
    intro s
    have hf := h f (List.mem_cons_self _ _)
    have ih' := ih (fun x hx => h x (List.mem_cons_of_mem _ hx))
    rw [List.cons_append, nl_recvmsgs_cons, dispatch_start]
    obtain ⟨seq_ok, body⟩ := f
    cases seq_ok with
    | false => simp [passes_by] at hf
    | true =>
      cases body with
      | error e => simp [passes_by] at hf
      | done => simp [passes_by] at hf
      | noop => exact ih' s
      | overrun => simp [passes_by] at hf
      | data m => exact ih' s

theorem handler_runs_quiet (quiet : List Frame) (f : Frame) (tail : List Frame)
    (h : ∀ x ∈ quiet, passes_by x = true) (hseq : f.seq_ok = true)
    (hf : (∃ e, f.body = .error e) ∨ f.body = .done) :
    handler_runs (quiet ++ f :: tail) = true := by
  induction quiet with
  | nil =>
    obtain ⟨seq_ok, body⟩ := f
    simp only at hseq
    subst hseq
    rcases hf with ⟨e, he⟩ | he
    · simp only at he
      subst he
      rfl
    · simp only at he
      subst he
      rfl
  | cons g gs ih =>
    have hg := h g (List.mem_cons_self _ _)
    have ih' := ih (fun x hx => h x (List.mem_cons_of_mem _ hx))
    obtain ⟨seq_ok, body⟩ := g
    cases seq_ok with
    | false => simp [passes_by] at hg
    | true =>
      cases body with
      | error e => simp [passes_by] at hg
      | done => simp [passes_by] at hg
      | noop => simpa [handler_runs] using ih'
      | overrun => simp [passes_by] at hg
      | data m => simpa [handler_runs] using ih'

theorem recv_loop_start (pre : List (List Frame)) (b : List Frame) (post : List (List Frame))
    (hpre : ∀ x ∈ pre, handler_runs x = false) (hb : handler_runs b = true)
    (s : Sess) (hs : 0 < s.status) :
    recv_loop (fun err => decide (err > 0)) start_ftm_cb (pre ++ b :: post) s =
      some ((nl_recvmsgs start_ftm_cb b s).1, false, post) := by
  induction pre with
  | nil =>
    have h := nl_recvmsgs_start_runs b hb s
    rcases hr : nl_recvmsgs start_ftm_cb b s with ⟨s', c, l⟩
    rw [hr] at h
    obtain ⟨h1, h2⟩ := h
    simp only at h1 h2
    subst h2
    cases post with
    | nil =>
      simp only [List.nil_append, recv_loop, hr]
      simp [hs, not_lt.2 h1]
    | cons x xs =>
      simp only [List.nil_append, recv_loop, hr]
      simp [hs, not_lt.2 h1]
  | cons x xs ih =>
    have hx := nl_recvmsgs_start_idle x (hpre x (List.mem_cons_self _ _)) s
    have := ih (fun y hy => hpre y (List.mem_cons_of_mem _ hy))
    rcases hr : nl_recvmsgs start_ftm_cb x s with ⟨s', c, l⟩
    rw [hr] at hx
    obtain ⟨h1, h2⟩ := hx
    simp only at h1 h2
    subst h1 h2
    simp only [List.cons_append, recv_loop, hr]
    simpa [hs] using this

/-- C9 (as stated, refuted): in a receive call that reads an `NLMSG_DONE`
message followed by an `NLMSG_ERROR` message with code -13, `finish_handler`
runs first and leaves status 0, yet the later message is dispatched too:
`error_handler` stores -13, no message of the call is left undispatched, and
`start_ftm` returns 1, where the same run without the second message
returns 0. -/
theorem ack_loop_later_frame_counterexample :
    (nl_recvmsgs start_ftm_cb [done_frame] ⟨1, []⟩).1.status = 0
    ∧ (nl_recvmsgs start_ftm_cb [done_frame, error_frame (-13)] ⟨1, []⟩).1.status = -13
    ∧ (nl_recvmsgs start_ftm_cb [done_frame, error_frame (-13)] ⟨1, []⟩).2.2 = []
    ∧ (start_ftm (plain_env [[done_frame]])).ret = some (.returned 0)
    ∧ (start_ftm (plain_env [[done_frame, error_frame (-13)]])).ret = some (.returned 1) := by
  refine ⟨by decide, by decide, rfl, by decide, by decide⟩

/-- C9 (amended): the receive loop of `start_ftm` starts with status 1
(pending); each of `error_handler`, `finish_handler`, `ack_handler` leaves a
status `≤ 0`.  Let the receive calls be `pre ++ (quiet ++ f :: tail) :: post`,
where no handler is invoked during the calls of `pre`, libnl passes by the
messages of `quiet`, and `f` is the first message that invokes a handler.  A
run that built and sent its request leaves the loop right after that receive
call with a status `≤ 0`, the receive calls of `post` are never made, and
`start_ftm` returns 0 exactly when the status is 0 and 1 when it is negative.
When `f` is an `NLMSG_ERROR` message (`error_handler` or `ack_handler`, which
return `NL_STOP`), the messages of `tail` are not dispatched and the status is
the one that handler stored.  When `f` is `NLMSG_DONE` (`finish_handler`, which
returns `NL_SKIP`), the receive call goes on through `tail` from status 0. -/
theorem ack_loop_terminal (env : Env) (pre : List (List Frame)) (quiet : List Frame)
    (f : Frame) (tail : List Frame) (post : List (List Frame))
    (halloc : env.nlmsg_alloc = true) (hdev : env.if_nametoindex ≠ 0)
    (hroom : ∀ m n, env.no_room m n = false) (hcb : env.nl_cb_alloc = true)
    (hsend : 0 ≤ env.nl_send_auto)
    (hin : env.incoming = pre ++ (quiet ++ f :: tail) :: post)
    (hpre : ∀ x ∈ pre, handler_runs x = false)
    (hquiet : ∀ x ∈ quiet, passes_by x = true)
    (hseq : f.seq_ok = true)
    (hf : (∃ e, f.body = .error e) ∨ f.body = .done) :
    ((∀ e, (error_handler e).ret ≤ 0) ∧ finish_handler.ret = 0 ∧ ack_handler.ret = 0)
    ∧ (nl_recvmsgs start_ftm_cb (quiet ++ f :: tail) ⟨1, []⟩).1.status ≤ 0
    ∧ recv_loop (fun err => decide (err > 0)) start_ftm_cb env.incoming ⟨1, []⟩
        = some ((nl_recvmsgs start_ftm_cb (quiet ++ f :: tail) ⟨1, []⟩).1, false, post)
    ∧ (start_ftm env).unread = post
    ∧ ((start_ftm env).ret = some (.returned 0)
        ↔ (nl_recvmsgs start_ftm_cb (quiet ++ f :: tail) ⟨1, []⟩).1.status = 0)
    ∧ ((nl_recvmsgs start_ftm_cb (quiet ++ f :: tail) ⟨1, []⟩).1.status < 0 →
        (start_ftm env).ret = some (.returned 1))
    ∧ (∀ e, f.body = .error e →
        (nl_recvmsgs start_ftm_cb (quiet ++ f :: tail) ⟨1, []⟩).2.2 = tail
        ∧ (nl_recvmsgs start_ftm_cb (quiet ++ f :: tail) ⟨1, []⟩).1.status
            = (if e.error = 0 then ack_handler.ret else (error_handler e).ret))
    ∧ (f.body = .done →
        nl_recvmsgs start_ftm_cb (quiet ++ f :: tail) ⟨1, []⟩
          = nl_recvmsgs start_ftm_cb tail ⟨finish_handler.ret, []⟩) := by
  have hb := handler_runs_quiet quiet f tail hquiet hseq hf
  have hloop := recv_loop_start pre (quiet ++ f :: tail) post hpre hb ⟨1, []⟩ (by decide)
  have hle := (nl_recvmsgs_start_runs (quiet ++ f :: tail) hb ⟨1, []⟩).1
  have hrun : start_ftm env = start_ftm_wait
      (some ⟨env.nl80211_id, NL80211_CMD_PEER_MEASUREMENT_START,
        request_log env.if_nametoindex⟩) [] env.incoming := by
    rw [start_ftm_built env halloc hdev hroom hcb, if_neg (by omega)]
  have hq := nl_recvmsgs_start_quiet quiet (f :: tail) hquiet ⟨1, []⟩
  refine ⟨⟨error_handler_ret_le, rfl, rfl⟩, hle, by rw [hin]; exact hloop, ?_, ?_, ?_, ?_, ?_⟩
  · rw [hrun, hin]
    unfold start_ftm_wait
    rw [hloop]
    simp only []
    split <;> rfl
  · rw [hrun, hin]
    unfold start_ftm_wait
    rw [hloop]
    simp only []
    split
    · constructor
      · intro h; cases h
      · intro h; omega
    · constructor
      · intro _; omega
      · intro _; rfl
  · intro hneg
    rw [hrun, hin]
    unfold start_ftm_wait
    rw [hloop]
    simp only []
    rw [if_pos hneg]
  · intro e he
    obtain ⟨seq_ok, body⟩ := f
    simp only at hseq he
    subst hseq he
    rw [hq, nl_recvmsgs_cons, dispatch_start]
    by_cases h0 : e.error = 0
    · simp only [h0, if_true, ne_eq, not_true_eq_false, if_false]
      exact ⟨trivial, rfl⟩
    · simp only [h0, if_true, ne_eq, not_false_eq_true, if_false]
      exact ⟨trivial, trivial⟩
  · intro he
    obtain ⟨seq_ok, body⟩ := f
    simp only at hseq he
    subst hseq he
    rw [hq, nl_recvmsgs_cons, dispatch_start]
    rfl

/-- C9 (amended) on three receive calls: an empty read; a call that reads an
`NLMSG_NOOP`, the kernel's error -1 and an acknowledgement; and a call that is
never made.  The run returns 1, the acknowledgement behind the error is not
dispatched, and the third call stays unread. -/
theorem ack_loop_terminal_witness :
    (start_ftm (plain_env
        [[], [⟨true, .noop⟩, error_frame (-1), ack_frame], [ack_frame]])).ret
      = some (.returned 1)
    ∧ (start_ftm (plain_env
        [[], [⟨true, .noop⟩, error_frame (-1), ack_frame], [ack_frame]])).unread
      = [[ack_frame]]
    ∧ (nl_recvmsgs start_ftm_cb [⟨true, .noop⟩, error_frame (-1), ack_frame] ⟨1, []⟩).2.2
      = [ack_frame] := by
  have h := ack_loop_terminal
    (plain_env [[], [⟨true, .noop⟩, error_frame (-1), ack_frame], [ack_frame]])
    [[]] [⟨true, .noop⟩] (error_frame (-1)) [ack_frame] [[ack_frame]]
    rfl (by decide) (fun _ _ => rfl) rfl (by decide) rfl
    (by intro x hx; simp at hx; subst hx; rfl)
    (by intro x hx; simp at hx; subst hx; rfl)
    rfl (Or.inl ⟨_, rfl⟩)
  exact ⟨h.2.2.2.2.2.1 (by decide), h.2.2.2.1, (h.2.2.2.2.2.2.1 _ rfl).1⟩

/-! ### A parse failure while listening -/

/-- C10 (evaluation at the failing input): `handle_ftm_result` fails with -1 on
a result message without cookie and with 1 on a result message whose peer has
no address, yet a listening round that receives either message and then
`PEER_MEASUREMENT_COMPLETE` returns 0, as a round that receives only
`PEER_MEASUREMENT_COMPLETE` does; without the completion message the round is
still waiting when the input ends. -/
theorem parse_failure_swallowed :
    (handle_ftm_result ⟨NL80211_CMD_PEER_MEASUREMENT_RESULT, []⟩ 1).exit = .returned (-1)
    ∧ (handle_ftm_result (result_msg [.nest 1 []]) 1).exit = .returned 1
    ∧ (listen_ftm_result true
        [[⟨true, .data ⟨NL80211_CMD_PEER_MEASUREMENT_RESULT, []⟩⟩],
         [⟨true, .data ⟨NL80211_CMD_PEER_MEASUREMENT_COMPLETE, []⟩⟩]]).ret
      = some (.returned 0)
    ∧ (listen_ftm_result true
        [[⟨true, .data (result_msg [.nest 1 []])⟩],
         [⟨true, .data ⟨NL80211_CMD_PEER_MEASUREMENT_COMPLETE, []⟩⟩]]).ret
      = some (.returned 0)
    ∧ (listen_ftm_result true
        [[⟨true, .data ⟨NL80211_CMD_PEER_MEASUREMENT_COMPLETE, []⟩⟩]]).ret
      = some (.returned 0)
    ∧ (listen_ftm_result true
        [[⟨true, .data ⟨NL80211_CMD_PEER_MEASUREMENT_RESULT, []⟩⟩]]).ret = none := by
  refine ⟨rfl, rfl, rfl, rfl, rfl, rfl⟩

end Ftm
